import Mathlib

/-!
# swrt-gpl: GPIO interrupt fan-out, AR5210 beacon timers, swrtmesh supervision

A shallow embedding of

* `release/linux/mtk/linux-5.4/drivers/gpio/gpio-ralink.c`
* `release/src/router/madwifi.dev/madwifi.dev/hal/ar5210/ar5210_beacon.c`
* `release/src/router/rc/sysdeps/swrtmesh.c`

Machine words are natural numbers; a C expression of type `u32` is reduced
modulo `2^32` where the C expression can leave the 32-bit range.
-/

/-! ## 32-bit word helpers -/

/-- Truncation of a value to a C `u32`. -/
def u32 (x : Nat) : Nat := x % 2 ^ 32

/-- Truncation of a value to a C `u16`. -/
def u16 (x : Nat) : Nat := x % 2 ^ 16

/-- Conversion of a 32-bit value to a C `int`: the values from `2^31` on are the
negative numbers. -/
def s32 (x : Nat) : Int :=
  if x % 2 ^ 32 < 2 ^ 31 then ((x % 2 ^ 32 : Nat) : Int)
  else ((x % 2 ^ 32 : Nat) : Int) - 2 ^ 32

/-- Kernel `BIT(nr)`, that is `1UL << nr`. -/
def BIT (nr : Nat) : Nat := 1 <<< nr

/-- Bitwise complement `~x` as seen in the low 32 bits. -/
def not32 (x : Nat) : Nat := (2 ^ 32 - 1) ^^^ (x % 2 ^ 32)

namespace GpioRalink

/-! ## gpio-ralink.c: data model -/

/-- The first value of `enum ralink_gpio_reg`; the others follow in order. -/
def GPIO_REG_INT : Nat := 0
def GPIO_REG_EDGE : Nat := 1
def GPIO_REG_RENA : Nat := 2
def GPIO_REG_FENA : Nat := 3
def GPIO_REG_DATA : Nat := 4
def GPIO_REG_DIR : Nat := 5
def GPIO_REG_POL : Nat := 6
def GPIO_REG_SET : Nat := 7
def GPIO_REG_RESET : Nat := 8
def GPIO_REG_TOGGLE : Nat := 9
def GPIO_REG_MAX : Nat := 10

/-- Modelled from the spec: the trigger-type flags of `linux/irq.h`, which is
not among the sources; the values are the ones of the kernel interface. -/
def IRQ_TYPE_EDGE_RISING : Nat := 1

/-- Modelled from the spec: see `IRQ_TYPE_EDGE_RISING`. -/
def IRQ_TYPE_EDGE_FALLING : Nat := 2

/-- Modelled from the spec: see `IRQ_TYPE_EDGE_RISING`. -/
def IRQ_TYPE_PROBE : Nat := 16

/-- Modelled from the spec: the two fields of `struct gpio_chip` that the driver
computes in probe.  The structure is declared in the kernel headers, which are
not among the sources, as `int base` and `u16 ngpio`; a value stored in a field
is converted to the type of the field. -/
structure gpio_chip where
  base : Int
  ngpio : Nat
deriving DecidableEq

/-- The driver state `struct ralink_gpio_chip`.  `hwregs r` is the content of the
device register that `membase + regs[r]` addresses, for `r` a value of
`enum ralink_gpio_reg`; `wlog` lists the register writes performed so far,
oldest first, as (register, value). -/
structure ralink_gpio_chip where
  chip : gpio_chip
  regs : List Nat
  hwregs : Nat → Nat
  wlog : List (Nat × Nat)
  membase : Nat
  domain : Option Nat
  irq : Nat
  rising : Nat
  falling : Nat

/-- The function `rt_gpio_w32`: `iowrite32(val, rg->membase + rg->regs[reg])`,
with `val` a `u32` parameter. -/
def rt_gpio_w32 (rg : ralink_gpio_chip) (reg : Nat) (val : Nat) : ralink_gpio_chip :=
  { rg with
    hwregs := Function.update rg.hwregs reg (u32 val),
    wlog := rg.wlog ++ [(reg, u32 val)] }

/-- The function `rt_gpio_r32`: `ioread32(rg->membase + rg->regs[reg])`, a `u32`. -/
def rt_gpio_r32 (rg : ralink_gpio_chip) (reg : Nat) : Nat :=
  u32 (rg.hwregs reg)

/-- The function `ralink_gpio_irq_unmask`, for the pin `hwirq` of the chip `rg`. -/
def ralink_gpio_irq_unmask (rg : ralink_gpio_chip) (hwirq : Nat) : ralink_gpio_chip :=
  let rise := rt_gpio_r32 rg GPIO_REG_RENA
  let fall := rt_gpio_r32 rg GPIO_REG_FENA
  let rg1 := rt_gpio_w32 rg GPIO_REG_RENA (rise ||| (BIT hwirq &&& rg.rising))
  rt_gpio_w32 rg1 GPIO_REG_FENA (fall ||| (BIT hwirq &&& rg1.falling))

/-- The function `ralink_gpio_irq_mask`, for the pin `hwirq` of the chip `rg`. -/
def ralink_gpio_irq_mask (rg : ralink_gpio_chip) (hwirq : Nat) : ralink_gpio_chip :=
  let rise := rt_gpio_r32 rg GPIO_REG_RENA
  let fall := rt_gpio_r32 rg GPIO_REG_FENA
  let rg1 := rt_gpio_w32 rg GPIO_REG_FENA (fall &&& not32 (BIT hwirq))
  rt_gpio_w32 rg1 GPIO_REG_RENA (rise &&& not32 (BIT hwirq))

/-- The function `ralink_gpio_irq_type`: the return value and the chip afterwards.
The probe branch either returns early (`none`) or replaces `type` by both edges. -/
def ralink_gpio_irq_type (rg : ralink_gpio_chip) (hwirq : Nat) (type : Nat) :
    Int × ralink_gpio_chip :=
  let mask := u32 (BIT hwirq)
  let probed : Option Nat :=
    if type = IRQ_TYPE_PROBE then
      if (rg.rising ||| rg.falling) &&& mask ≠ 0 then none
      else some (IRQ_TYPE_EDGE_RISING ||| IRQ_TYPE_EDGE_FALLING)
    else some type
  match probed with
  | none => (0, rg)
  | some type =>
    let rising := if type &&& IRQ_TYPE_EDGE_RISING ≠ 0 then u32 (rg.rising ||| mask)
      else rg.rising &&& not32 mask
    let falling := if type &&& IRQ_TYPE_EDGE_FALLING ≠ 0 then u32 (rg.falling ||| mask)
      else rg.falling &&& not32 mask
    (0, { rg with rising := rising, falling := falling })

/-- The callbacks of `struct irq_chip` that the driver fills in. -/
structure irq_chip where
  name : String
  irq_unmask : ralink_gpio_chip → Nat → ralink_gpio_chip
  irq_mask : ralink_gpio_chip → Nat → ralink_gpio_chip
  irq_mask_ack : ralink_gpio_chip → Nat → ralink_gpio_chip
  irq_set_type : ralink_gpio_chip → Nat → Nat → Int × ralink_gpio_chip

/-- The table `ralink_gpio_irq_chip`. -/
def ralink_gpio_irq_chip : irq_chip :=
  { name := "GPIO"
    irq_unmask := ralink_gpio_irq_unmask
    irq_mask := ralink_gpio_irq_mask
    irq_mask_ack := ralink_gpio_irq_mask
    irq_set_type := ralink_gpio_irq_type }

/-- A chip with pin 0 enabled for rising edges in `GPIO_REG_RENA` while no
polarity is configured for it. -/
def stale_rena_chip : ralink_gpio_chip :=
  { chip := { base := 0, ngpio := 24 }, regs := [0, 4, 8, 12, 16, 20, 24, 28, 32, 36],
    hwregs := fun r => if r = GPIO_REG_RENA then 1 else 0, wlog := [],
    membase := 1, domain := none, irq := 1, rising := 0, falling := 0 }

/-! ### The chained interrupt handler -/

/-- A registered `struct irq_domain`: `host_data` is the chip it belongs to, as
the chip is when the handler reaches it, and `revmap` is the hardware-irq to
virtual-irq mapping that `irq_find_mapping` reports for it. -/
structure irq_domain where
  host_data : ralink_gpio_chip
  revmap : Nat → Nat

/-- What the handler does that is visible outside it: a dispatch of a virtual
irq, or a register write on the chip of `irq_map[i]`. -/
inductive irq_event where
  | generic_handle_irq (map : Nat)
  | rt_gpio_w32 (i : Nat) (reg : Nat) (val : Nat)
deriving DecidableEq, Repr

/-- Modelled from the spec: `find_next_bit` of the kernel bit operations, which
are not among the sources: the lowest set bit of the word `addr` at or above
`offset` and below `size`, or `size` when there is none. -/
def find_next_bit (addr size offset : Nat) : Nat :=
  if offset < size then
    if addr.testBit offset then offset else find_next_bit addr size (offset + 1)
  else size
termination_by size - offset

/-- The search never moves backwards. -/
theorem le_find_next_bit (addr size offset : Nat) (h : offset ≤ size) :
    offset ≤ find_next_bit addr size offset := by
  generalize hn : size - offset = n
  induction n generalizing offset with
  | zero =>
    unfold find_next_bit
    have : ¬ offset < size := by omega
    simp [this]; omega
  | succ n ih =>
    unfold find_next_bit
    have hlt : offset < size := by omega
    simp only [hlt, if_true]
    split
    · exact Nat.le_refl _
    · have := ih (offset + 1) (by omega) (by omega)
      omega

/-- The body of `for_each_set_bit(bit, &pending, size)` in the handler, entered
with the loop variable at `bit`: dispatch the mapped irq, acknowledge the pin,
move to the next set bit. -/
def for_each_set_bit_from (i : Nat) (domain : irq_domain) (pending size bit : Nat) :
    List irq_event :=
  if h : bit < size then
    irq_event.generic_handle_irq (domain.revmap bit)
      :: irq_event.rt_gpio_w32 i GPIO_REG_INT (u32 (BIT bit))
      :: for_each_set_bit_from i domain pending size (find_next_bit pending size (bit + 1))
  else []
termination_by size - bit
decreasing_by
  have := le_find_next_bit pending size (bit + 1) (by omega)
  omega

/-- One turn of the outer loop of the handler, for `irq_map[i]`. -/
def ralink_gpio_irq_handler_turn (i : Nat) (domain : irq_domain) : List irq_event :=
  let rg := domain.host_data
  let pending := rt_gpio_r32 rg GPIO_REG_INT
  for_each_set_bit_from i domain pending rg.chip.ngpio
    (find_next_bit pending rg.chip.ngpio 0)

/-- The outer loop of the handler from index `i` on. -/
def ralink_gpio_irq_handler_from : Nat → List irq_domain → List irq_event
  | _, [] => []
  | i, domain :: rest =>
    ralink_gpio_irq_handler_turn i domain ++ ralink_gpio_irq_handler_from (i + 1) rest

/-- The function `ralink_gpio_irq_handler`; `irq_map` lists the registered domains
`irq_map[0 .. irq_map_count-1]`. -/
def ralink_gpio_irq_handler (irq_map : List irq_domain) : List irq_event :=
  ralink_gpio_irq_handler_from 0 irq_map

/-- The pins of a chip that the handler is to serve: the positions below
`ngpio` whose bit is set in the pending value, in ascending order. -/
def pending_pins (pending ngpio : Nat) : List Nat :=
  (List.range ngpio).filter (fun bit => pending.testBit bit)

/-- The fan-out for one chip as the specification words it: for each pending
pin in turn, the dispatch of its virtual irq followed by the acknowledgement
of that pin. -/
def fan_out_turn (i : Nat) (domain : irq_domain) : List irq_event :=
  (pending_pins (rt_gpio_r32 domain.host_data GPIO_REG_INT)
      domain.host_data.chip.ngpio).flatMap
    (fun bit => [irq_event.generic_handle_irq (domain.revmap bit),
                 irq_event.rt_gpio_w32 i GPIO_REG_INT (BIT bit)])

/-- The fan-out over the registered domains, in registration order. -/
def fan_out (irq_map : List irq_domain) : List irq_event :=
  irq_map.enum.flatMap (fun e => fan_out_turn e.1 e.2)

/-! ### Probe -/

/-- Modelled from the spec: the error numbers of `errno.h`, which is not among
the sources. -/
def ENOMEM : Int := 12

/-- Modelled from the spec: see `ENOMEM`. -/
def EINVAL : Int := 22

def MAP_MAX : Nat := 4

/-- A device-tree cell `__be32`, as its four bytes in memory order. -/
structure be32 where
  b0 : Nat
  b1 : Nat
  b2 : Nat
  b3 : Nat
deriving DecidableEq

/-- Modelled from the spec: `be32_to_cpu` of the kernel byte-order helpers, which
are not among the sources: the big-endian value of the four bytes. -/
def be32_to_cpu (c : be32) : Nat :=
  (c.b0 % 256) * 2 ^ 24 + (c.b1 % 256) * 2 ^ 16 + (c.b2 % 256) * 2 ^ 8 + c.b3 % 256

/-- What the platform answers to the calls that probe makes. -/
structure platform_device where
  /-- The call `platform_get_resource(pdev, IORESOURCE_MEM, 0)`, `none` for NULL. -/
  res : Option Nat
  /-- Whether `devm_kzalloc` returns a chip. -/
  kzalloc_ok : Bool
  /-- The pointer `devm_ioremap_resource` returns, `0` for NULL. -/
  ioremap_resource : Nat
  /-- The contents of the device registers behind that mapping. -/
  devregs : Nat → Nat
  /-- The property "ralink,register-map" as `of_property_read_u8_array` reads it:
  `none` when the call returns non-zero, else the `GPIO_REG_MAX` bytes. -/
  register_map : Option (List Nat)
  /-- The property "ralink,num-gpios", `none` when `of_get_property` returns NULL. -/
  num_gpios : Option be32
  /-- The property "ralink,gpio-base". -/
  gpio_base : Option be32
  /-- The call `irq_of_parse_and_map(np, 0)`. -/
  irq_of_parse_and_map : Nat
  /-- The call `irq_domain_add_linear`, `none` for NULL. -/
  irq_domain_add_linear : Option Nat
  /-- The call `gpiochip_add` on the chip handed to it. -/
  gpiochip_add : gpio_chip → Int

/-- The file-scope variables `irq_map`, `irq_map_count` and `irq_refcount`, and the
chained handler installed on the parent interrupt, if any. -/
structure irq_globals where
  /-- The array `irq_map[MAP_MAX]`, by index; `none` is a NULL slot. -/
  irq_map : Nat → Option Nat
  irq_map_count : Nat
  irq_refcount : Nat
  chained_handler : Option Nat

/-- The function `ralink_gpio_irq_init`. -/
def ralink_gpio_irq_init (pdev : platform_device) (g : irq_globals)
    (rg : ralink_gpio_chip) : irq_globals × ralink_gpio_chip :=
  if g.irq_map_count ≥ MAP_MAX then (g, rg)
  else
    let rg := { rg with irq := pdev.irq_of_parse_and_map }
    if rg.irq = 0 then (g, rg)
    else
      let rg := { rg with domain := pdev.irq_domain_add_linear }
      match rg.domain with
      | none => (g, rg)
      | some domain =>
        let g := { g with
          irq_map := Function.update g.irq_map g.irq_map_count (some domain),
          irq_map_count := g.irq_map_count + 1 }
        let rg := rt_gpio_w32 rg GPIO_REG_RENA 0
        let rg := rt_gpio_w32 rg GPIO_REG_FENA 0
        let g := if g.irq_refcount = 0 then
          { g with chained_handler := some rg.irq } else g
        let g := { g with irq_refcount := g.irq_refcount + 1 }
        (g, rg)

/-- The outcome of probe: the return value, the register writes performed, the
chip handed to `gpiochip_add` (if the call is reached), the driver state that
was set up (if any) and the file-scope variables afterwards. -/
structure probe_result where
  ret : Int
  writes : List (Nat × Nat)
  registered : Option gpio_chip
  rg : Option ralink_gpio_chip
  globals : irq_globals

/-- A return from probe before any register is touched. -/
def probe_fail (g : irq_globals) (err : Int) : probe_result :=
  { ret := err, writes := [], registered := none, rg := none, globals := g }

/-- The function `ralink_gpio_probe`. -/
def ralink_gpio_probe (pdev : platform_device) (g : irq_globals) : probe_result :=
  match pdev.res with
  | none => probe_fail g (-ENOMEM)
  | some _ =>
    if !pdev.kzalloc_ok then probe_fail g (-ENOMEM)
    else
      let rg : ralink_gpio_chip :=
        { chip := { base := 0, ngpio := 0 }, regs := List.replicate GPIO_REG_MAX 0,
          hwregs := pdev.devregs, wlog := [], membase := 0, domain := none, irq := 0,
          rising := 0, falling := 0 }
      let rg := { rg with membase := pdev.ioremap_resource }
      if rg.membase = 0 then probe_fail g (-ENOMEM)
      else
        match pdev.register_map with
        | none => probe_fail g (-EINVAL)
        | some map =>
          let rg := { rg with regs := map }
          match pdev.num_gpios with
          | none => probe_fail g (-EINVAL)
          | some ngpio =>
            let rg := match pdev.gpio_base with
              | some gpiobase =>
                { rg with chip := { rg.chip with base := s32 (be32_to_cpu gpiobase) } }
              | none => { rg with chip := { rg.chip with base := -1 } }
            let rg := { rg with chip := { rg.chip with ngpio := u16 (be32_to_cpu ngpio) } }
            let rg := rt_gpio_w32 rg GPIO_REG_POL 0
            let (g, rg) := ralink_gpio_irq_init pdev g rg
            { ret := pdev.gpiochip_add rg.chip, writes := rg.wlog,
              registered := some rg.chip, rg := some rg, globals := g }

/-- A device tree whose "ralink,num-gpios" cell is `00 01 00 18` (65560) and whose
"ralink,gpio-base" cell is `80 00 00 00` (2147483648); everything probe asks
for is there, and the node has no interrupt. -/
def wide_cells_pdev : platform_device :=
  { res := some 0x10000600, kzalloc_ok := true, ioremap_resource := 0xb0000600,
    devregs := fun _ => 0,
    register_map := some [0, 4, 8, 12, 32, 36, 40, 44, 48, 52],
    num_gpios := some { b0 := 0, b1 := 1, b2 := 0, b3 := 24 },
    gpio_base := some { b0 := 128, b1 := 0, b2 := 0, b3 := 0 },
    irq_of_parse_and_map := 0, irq_domain_add_linear := none,
    gpiochip_add := fun _ => 0 }

/-- The file-scope variables before the first probe. -/
def irq_globals_init : irq_globals :=
  { irq_map := fun _ => none, irq_map_count := 0, irq_refcount := 0,
    chained_handler := none }

end GpioRalink

namespace Ar5210

/-! ## ar5210_beacon.c: data model -/

/-- The registers the beacon code touches; their addresses are those of
`ar5210reg.h`, one per name. -/
inductive ar_reg where
  | AR_TIMER0 | AR_TIMER1 | AR_TIMER2 | AR_TIMER3
  | AR_BEACON | AR_STA_ID1 | AR_CFP_PERIOD | AR_CFP_DUR | AR_RSSI_THR
deriving DecidableEq, Repr

/-- A register access, in program order. -/
inductive reg_event where
  | rd (reg : ar_reg)
  | wr (reg : ar_reg) (val : Nat)
deriving DecidableEq, Repr

/-- The field masks, shifts and enumeration values of `ar5210reg.h` and `ah.h`
that the beacon code names; the headers are not among the sources, so the
values are parameters of the model. -/
structure ar5210reg where
  AR_STA_ID1_DEFAULT_ANTENNA : Nat
  AR_STA_ID1_PCF : Nat
  AR_STA_ID1_NO_PSPOLL : Nat
  AR_BEACON_PERIOD : Nat
  AR_BEACON_PERIOD_S : Nat
  AR_BEACON_TIM : Nat
  AR_BEACON_TIM_S : Nat
  AR_BEACON_RESET_TSF : Nat
  AR_BEACON_EN : Nat
  AR_SREV_CRETE : Nat
  HAL_M_STA : Nat

/-- An assignment of those names, following the AR5210 headers, for concrete
instances; the theorems hold for every assignment. -/
def ar5210reg_h : ar5210reg :=
  { AR_STA_ID1_DEFAULT_ANTENNA := 0x00800000
    AR_STA_ID1_PCF := 0x00200000
    AR_STA_ID1_NO_PSPOLL := 0x00100000
    AR_BEACON_PERIOD := 0x0000ffff
    AR_BEACON_PERIOD_S := 0
    AR_BEACON_TIM := 0x007f0000
    AR_BEACON_TIM_S := 16
    AR_BEACON_RESET_TSF := 0x01000000
    AR_BEACON_EN := 0x00800000
    AR_SREV_CRETE := 7
    HAL_M_STA := 1 }

/-- Modelled from the spec: the beacon-miss threshold field of `AR_RSSI_THR`
(`ar5210reg.h` is not among the sources): three bits wide, so that
`AR_RSSI_THR_BM_THR >> AR_RSSI_THR_BM_THR_S` is 7, at bit 8 of the register. -/
def AR_RSSI_THR_BM_THR : Nat := 0x00000700

/-- Modelled from the spec: see `AR_RSSI_THR_BM_THR`. -/
def AR_RSSI_THR_BM_THR_S : Nat := 8

/-- The macro `BMISS_MAX` of `ar5210SetStaBeaconTimers`. -/
def BMISS_MAX : Nat := AR_RSSI_THR_BM_THR >>> AR_RSSI_THR_BM_THR_S

/-- Modelled from the spec: the HAL macro `SM(v, f)`, that is
`((v) << f_S) & f`, on 32-bit words. -/
def SM (v f f_S : Nat) : Nat := u32 (v <<< f_S) &&& f

/-- Modelled from the spec: the HAL macro `MS(v, f)`, that is
`((v) & f) >> f_S`, the content of a field. -/
def MS (v f f_S : Nat) : Nat := (v &&& f) >>> f_S

/-- The type `HAL_BEACON_TIMERS`. -/
structure HAL_BEACON_TIMERS where
  bt_intval : Nat
  bt_nexttbtt : Nat
  bt_nextatim : Nat
  bt_nextdba : Nat
  bt_nextswba : Nat
deriving DecidableEq, Repr

/-- The fields of `HAL_BEACON_STATE` that the AR5210 code reads. -/
structure HAL_BEACON_STATE where
  bs_nexttbtt : Nat
  bs_intval : Nat
  bs_cfpperiod : Nat
  bs_cfpmaxduration : Nat
  bs_cfpnext : Nat
  bs_timoffset : Nat
  bs_bmissthreshold : Nat

/-- The HAL instance: the private fields read by the beacon code, the register
file, and the log of register accesses, oldest first. -/
structure ath_hal_5210 where
  ah_opmode : Nat
  ah_macRev : Nat
  ah_rssiThr : Nat
  hwregs : ar_reg → Nat
  trace : List reg_event

/-- The tunables `ath_hal_dma_beacon_response_time` and
`ath_hal_sw_beacon_response_time`, C `int` variables defined outside this file. -/
structure ath_hal_tunables where
  ath_hal_dma_beacon_response_time : Int
  ath_hal_sw_beacon_response_time : Int

/-- The macro `OS_REG_WRITE(ah, reg, val)`. -/
def OS_REG_WRITE (ah : ath_hal_5210) (reg : ar_reg) (val : Nat) : ath_hal_5210 :=
  { ah with
    hwregs := Function.update ah.hwregs reg val,
    trace := ah.trace ++ [reg_event.wr reg val] }

/-- The macro `OS_REG_READ(ah, reg)`: the value read and the instance with the
access logged. -/
def OS_REG_READ (ah : ath_hal_5210) (reg : ar_reg) : Nat × ath_hal_5210 :=
  (ah.hwregs reg, { ah with trace := ah.trace ++ [reg_event.rd reg] })

/-- The accesses a call performed, given the instance before and after it. -/
def call_events (before after : ath_hal_5210) : List reg_event :=
  after.trace.drop before.trace.length

/-- The function `ar5210SetBeaconTimers`. -/
def ar5210SetBeaconTimers (ah : ath_hal_5210) (bt : HAL_BEACON_TIMERS) : ath_hal_5210 :=
  let ah := OS_REG_WRITE ah ar_reg.AR_TIMER0 bt.bt_nexttbtt
  let ah := OS_REG_WRITE ah ar_reg.AR_TIMER1 bt.bt_nextdba
  let ah := OS_REG_WRITE ah ar_reg.AR_TIMER2 bt.bt_nextswba
  let ah := OS_REG_WRITE ah ar_reg.AR_TIMER3 bt.bt_nextatim
  OS_REG_WRITE ah ar_reg.AR_BEACON bt.bt_intval

/-- The difference `a - b` of a `u_int32_t` and an `int`, taken as C takes it:
in unsigned 32-bit arithmetic. -/
def sub32 (a : Nat) (b : Int) : Nat := (((a : Int) - b) % 2 ^ 32).toNat

/-- The local `bt` that `ar5210BeaconInit` fills in before its call of
`ar5210SetBeaconTimers`. -/
def ar5210BeaconInit_bt (c : ar5210reg) (t : ath_hal_tunables) (ah : ath_hal_5210)
    (next_beacon beacon_period : Nat) : HAL_BEACON_TIMERS :=
  let bt : HAL_BEACON_TIMERS :=
    { bt_intval := 0, bt_nexttbtt := next_beacon, bt_nextatim := 0,
      bt_nextdba := 0, bt_nextswba := 0 }
  let bt :=
    if ah.ah_opmode ≠ c.HAL_M_STA then
      let bt := { bt with
        bt_nextdba := u32 (sub32 next_beacon t.ath_hal_dma_beacon_response_time <<< 3) }
      let bt := { bt with
        bt_nextswba := u32 (sub32 next_beacon t.ath_hal_sw_beacon_response_time <<< 3) }
      { bt with bt_nextatim := u32 (next_beacon + 0) }
    else
      let bt := { bt with bt_nextdba := not32 0 }
      let bt := { bt with bt_nextswba := not32 0 }
      { bt with bt_nextatim := 1 }
  { bt with bt_intval := beacon_period &&&
      (c.AR_BEACON_PERIOD ||| c.AR_BEACON_RESET_TSF ||| c.AR_BEACON_EN) }

/-- The function `ar5210BeaconInit`. -/
def ar5210BeaconInit (c : ar5210reg) (t : ath_hal_tunables) (ah : ath_hal_5210)
    (next_beacon beacon_period : Nat) : ath_hal_5210 :=
  ar5210SetBeaconTimers ah (ar5210BeaconInit_bt c t ah next_beacon beacon_period)

/-- The first block of `ar5210SetStaBeaconTimers`: tell the hardware whether the
associated AP is PCF capable, and program the CFP registers if it is. -/
def sta_set_pcf (c : ar5210reg) (ah : ath_hal_5210) (bs : HAL_BEACON_STATE) :
    ath_hal_5210 :=
  if bs.bs_cfpmaxduration ≠ 0 then
    let (v, ah) := OS_REG_READ ah ar_reg.AR_STA_ID1
    let ah := OS_REG_WRITE ah ar_reg.AR_STA_ID1
      ((v &&& not32 c.AR_STA_ID1_DEFAULT_ANTENNA) ||| c.AR_STA_ID1_PCF)
    let ah := OS_REG_WRITE ah ar_reg.AR_CFP_PERIOD bs.bs_cfpperiod
    let ah := OS_REG_WRITE ah ar_reg.AR_CFP_DUR bs.bs_cfpmaxduration
    OS_REG_WRITE ah ar_reg.AR_TIMER2 (u32 (bs.bs_cfpnext <<< 3))
  else
    let (v, ah) := OS_REG_READ ah ar_reg.AR_STA_ID1
    OS_REG_WRITE ah ar_reg.AR_STA_ID1
      (v &&& not32 (c.AR_STA_ID1_DEFAULT_ANTENNA ||| c.AR_STA_ID1_PCF))

/-- The second block of `ar5210SetStaBeaconTimers`: `AR_TIMER0` and the beacon
register. -/
def sta_set_beacon (c : ar5210reg) (ah : ath_hal_5210) (bs : HAL_BEACON_STATE) :
    ath_hal_5210 :=
  let ah := OS_REG_WRITE ah ar_reg.AR_TIMER0 bs.bs_nexttbtt
  let (v, ah) := OS_REG_READ ah ar_reg.AR_BEACON
  OS_REG_WRITE ah ar_reg.AR_BEACON
    ((v &&& not32 (c.AR_BEACON_PERIOD ||| c.AR_BEACON_TIM))
      ||| SM bs.bs_intval c.AR_BEACON_PERIOD c.AR_BEACON_PERIOD_S
      ||| SM (if bs.bs_timoffset ≠ 0 then bs.bs_timoffset + 4 else 0)
            c.AR_BEACON_TIM c.AR_BEACON_TIM_S)

/-- The last block of `ar5210SetStaBeaconTimers`: the beacon-miss threshold. -/
def sta_set_bmiss (c : ar5210reg) (ah : ath_hal_5210) (bs : HAL_BEACON_STATE) :
    ath_hal_5210 :=
  if ah.ah_macRev < c.AR_SREV_CRETE then ah
  else if ah.ah_macRev ≥ c.AR_SREV_CRETE ∧ bs.bs_bmissthreshold &&& 7 = 0 then ah
  else
    let ah := { ah with
      ah_rssiThr := (ah.ah_rssiThr &&& not32 AR_RSSI_THR_BM_THR)
        ||| SM (if bs.bs_bmissthreshold > BMISS_MAX then BMISS_MAX
                else bs.bs_bmissthreshold)
              AR_RSSI_THR_BM_THR AR_RSSI_THR_BM_THR_S }
    OS_REG_WRITE ah ar_reg.AR_RSSI_THR ah.ah_rssiThr

/-- The function `ar5210SetStaBeaconTimers`, its three blocks in order.
`HALASSERT` expands to nothing unless the HAL is built with assertions. -/
def ar5210SetStaBeaconTimers (c : ar5210reg) (ah : ath_hal_5210)
    (bs : HAL_BEACON_STATE) : ath_hal_5210 :=
  sta_set_bmiss c (sta_set_beacon c (sta_set_pcf c ah bs) bs) bs

/-- An instance on Crete hardware with an empty access log. -/
def crete_hal : ath_hal_5210 :=
  { ah_opmode := 1, ah_macRev := 7, ah_rssiThr := 0, hwregs := fun _ => 0, trace := [] }

/-- A beacon state of a station, with beacon-miss threshold `bmiss`. -/
def sta_beacon_state (bmiss : Nat) : HAL_BEACON_STATE :=
  { bs_nexttbtt := 100, bs_intval := 100, bs_cfpperiod := 0, bs_cfpmaxduration := 0,
    bs_cfpnext := 0, bs_timoffset := 0, bs_bmissthreshold := bmiss }

end Ar5210

namespace Swrtmesh

/-! ## swrtmesh.c: data model -/

/-- What the system answers to the queries of the supervision code.  Every
process name and every path is queried at most once in a run of
`start_swrtmesh`, so one answer per name and per path is all a run can see. -/
structure world where
  /-- The value of `getpid()`. -/
  getpid : Nat
  /-- The NVRAM variables, `none` for an unset one. -/
  nvram : String → Option String
  /-- Whether `pids(name)` finds a process. -/
  pids : String → Bool
  /-- The answers of `check_if_dir_exist`. -/
  check_if_dir_exist : String → Bool
  /-- The answers of `check_if_file_exist`. -/
  check_if_file_exist : String → Bool
  /-- The string that `swrtmesh_get_value_by_string("mapagent", "controller_select",
  NULL, "local", buf, sizeof(buf))` leaves in `buf`. -/
  controller_select : String
  /-- Whether `fopen("/tmp/agent.sh", "w+")` returns a stream. -/
  fopen_ok : Bool

/-- The effects of the supervision code on the system, in program order. -/
inductive action where
  | notify_rc (event : String)
  | killall_tk (name : String)
  | system (command : String)
  | eval (argv : List String)
  | _eval (argv : List String)
  | generate_config (which : String)
  | unlink (path : String)
  | write_file (path : String) (lines : List String)
  | chmod (path : String) (mode : Nat)
deriving DecidableEq, Repr

/-- Modelled from the spec: `nvram_match(name, match)` of the shared library,
which is not among the sources: the variable is set and equal to `match`. -/
def nvram_match (w : world) (name value : String) : Bool :=
  w.nvram name == some value

/-- One `if(pids(name)) killall_tk(name);` of `stop_swrtmesh`. -/
def kill_if_running (w : world) (name : String) : List action :=
  if w.pids name then [action.killall_tk name] else []

/-- The function `stop_swrtmesh`. -/
def stop_swrtmesh (w : world) : List action :=
  if w.getpid ≠ 1 then [action.notify_rc "stop_swrtmesh"]
  else
    kill_if_running w "topologyd" ++ kill_if_running w "dynbhd"
      ++ kill_if_running w "swrtmeshd" ++ kill_if_running w "mapagent"
      ++ kill_if_running w "mapcontroller" ++ kill_if_running w "ieee1905d"
      ++ kill_if_running w "ubusd"

/-- One `if(!check_if_file_exist(path)) swrtmesh_generate_..._config();` of
`auto_generate_config`. -/
def generate_if_missing (w : world) (path which : String) : List action :=
  if !w.check_if_file_exist path then [action.generate_config which] else []

/-- The function `auto_generate_config`. -/
def auto_generate_config (w : world) : List action :=
  (if !w.check_if_dir_exist "/var/run/multiap" then
      [action.eval ["mkdir", "-p", "/var/run/multiap"]] else [])
    ++ generate_if_missing w "/etc/config/wireless" "wireless"
    ++ generate_if_missing w "/etc/config/ieee1905" "ieee1905"
    ++ generate_if_missing w "/etc/config/mapcontroller" "controller"
    ++ generate_if_missing w "/etc/config/mapagent" "agent"
    ++ generate_if_missing w "/etc/config/topology" "topology"
    ++ generate_if_missing w "/etc/config/hosts" "hosts"

def ubusd_argv : List String := ["ubusd"]

def ieee1905_argv : List String := ["ieee1905d", "-o", "/tmp/ieee1905.log", "-dddd"]

/-- The array `cntl_argv` up to its first NULL; `w_flag` says whether slot 5 was
set to "-w". -/
def cntl_argv (w_flag : Bool) : List String :=
  ["mapcontroller", "-o", "/tmp/mapcontroller.log", "-d", "-vvvv"]
    ++ (if w_flag then ["-w"] else [])

def tp_argv : List String := ["topologyd"]

/-- The array `argv` of the agent branch. -/
def agent_argv : List String := ["/sbin/delay_exec", "15", "/tmp/agent.sh"]

/-- The controller branch of `start_swrtmesh`. -/
def start_controller (w : world) : List action :=
  if nvram_match w "swrtmesh_controller_enable" "1" then
    let buf := w.controller_select
    [action._eval (cntl_argv (buf == "0"))]
      ++ (if w.check_if_file_exist "/proc/sys/net/netfilter/nf_conntrack_timestamp" then
            [action.system "echo 1 >/proc/sys/net/netfilter/nf_conntrack_timestamp"]
          else [])
  else []

/-- The function `start_swrtmesh`: the return value and the effects. -/
def start_swrtmesh (w : world) : Int × List action :=
  if w.getpid ≠ 1 then (0, [action.notify_rc "start_swrtmesh"])
  else if nvram_match w "swrtmesh_enable" "0" || nvram_match w "x_Setting" "0" then (0, [])
  else
    let acts := stop_swrtmesh w
      ++ [action.system "touch /tmp/SWRTMESHUTILS_DEBUG"]
      ++ auto_generate_config w
      ++ [action._eval ubusd_argv, action._eval ieee1905_argv, action._eval tp_argv]
      ++ start_controller w
    if nvram_match w "swrtmesh_agent_enable" "1" then
      let acts := acts ++ [action.unlink "/var/run/multiap/multiap.backhaul"]
      if !w.fopen_ok then (-1, acts)
      else
        (0, acts ++ [action.write_file "/tmp/agent.sh"
                      ["#!/bin/sh\n", "dynbhd &\n",
                       "mapagent -o /tmp/mapagent.log -d -vvvv &\n"],
                     action.chmod "/tmp/agent.sh" 0o777,
                     action._eval agent_argv])
    else (0, acts)

/-- The daemons spawned by a run: the argument vectors of its `_eval` calls. -/
def spawned : List action → List (List String)
  | [] => []
  | action._eval argv :: rest => argv :: spawned rest
  | _ :: rest => spawned rest

/-- The process names a run kills. -/
def killed : List action → List String
  | [] => []
  | action.killall_tk name :: rest => name :: killed rest
  | _ :: rest => killed rest

/-- A system where init (pid 1) starts the mesh with the agent enabled, and
"/tmp/agent.sh" cannot be opened for writing. -/
def agent_script_unwritable : world :=
  { getpid := 1
    nvram := fun name => if name = "swrtmesh_agent_enable" then some "1" else none
    pids := fun _ => false
    check_if_dir_exist := fun _ => true
    check_if_file_exist := fun _ => true
    controller_select := ""
    fopen_ok := false }

/-! ### wl_isup -/

/-- The files that `wl_isup` can see: the content of a path, `none` for a path
that does not exist. -/
structure sysfs where
  files : String → Option String

/-- The first `n` characters of a string. -/
def truncate (s : String) (n : Nat) : String := String.mk (s.data.take n)

/-- Modelled from the spec: `f_exists(path)` of the shared library, which is not
among the sources: whether the path exists. -/
def f_exists (fs : sysfs) (path : String) : Bool := (fs.files path).isSome

/-- Modelled from the spec: `f_read_string(path, buffer, max)` of the shared
library, which is not among the sources: it reads the content of the file into
the buffer, `max` being the read limit.  With a limit of 0 or less nothing is
read and the return value is -1; otherwise at most `max - 1` characters are
read, the buffer is terminated after them and their number is returned, or -1
for a file that cannot be opened.  The result is the return value and the
buffer afterwards. -/
def f_read_string (fs : sysfs) (path buffer : String) (max : Int) : Int × String :=
  if max ≤ 0 then (-1, buffer)
  else
    match fs.files path with
    | none => (-1, "")
    | some content =>
      let n := min content.length (max - 1).toNat
      ((n : Int), truncate content n)

/-- The C value of a condition: 1 when it holds, 0 when it does not. -/
def c_bool (b : Bool) : Int := if b then 1 else 0

/-- The path that `snprintf(path, sizeof(path), "/sys/class/net/%s/operstate",
ifname)` leaves in `path`. -/
def operstate_path (sizeof_path : Nat) (ifname : String) : String :=
  truncate ("/sys/class/net/" ++ ifname ++ "/operstate") (sizeof_path - 1)

/-- The function `wl_isup`.  The third argument of `f_read_string` is the
expression `sizeof(buf) > 0 && !strcmp(buf, "up")` of the source, taken on the
zero-filled `buf`. -/
def wl_isup (fs : sysfs) (ifname : String) : Int :=
  let sizeof_path : Nat := 128
  let sizeof_buf : Nat := 16
  let buf : String := ""
  let path := operstate_path sizeof_path ifname
  if !f_exists fs path then 0
  else if (f_read_string fs path buf
      (c_bool (decide (sizeof_buf > 0) && (buf == "up")))).1 ≠ 0 then 1
  else 0

/-- The result as the specification words it: 0 when the operstate file does
not exist, and otherwise 1 if and only if the string read into the 16-byte
buffer, with the buffer size as the read limit, is "up". -/
def wl_isup_worded (fs : sysfs) (ifname : String) : Int :=
  let path := operstate_path 128 ifname
  if !f_exists fs path then 0
  else if (f_read_string fs path "" 16).2 == "up" then 1
  else 0

/-- A system whose interface eth0 is down. -/
def eth0_down : sysfs :=
  { files := fun path =>
      if path = "/sys/class/net/eth0/operstate" then some "down\n" else none }

end Swrtmesh
/-! ## Bit-level facts -/

theorem testBit_BIT (h i : Nat) : (BIT h).testBit i = decide (h = i) := by
  unfold BIT
  rw [Nat.one_shiftLeft]
  exact Nat.testBit_two_pow

theorem testBit_u32 (x i : Nat) : (u32 x).testBit i = (decide (i < 32) && x.testBit i) := by
  unfold u32
  exact Nat.testBit_mod_two_pow x 32 i

theorem testBit_not32 (x i : Nat) :
    (not32 x).testBit i = (decide (i < 32) && !x.testBit i) := by
  unfold not32
  rw [Nat.testBit_xor, Nat.testBit_two_pow_sub_one, Nat.testBit_mod_two_pow]
  by_cases h : i < 32 <;> simp [h]

theorem and_ne_zero_iff_testBit (x h : Nat) (hh : h < 32) :
    x &&& u32 (BIT h) ≠ 0 ↔ x.testBit h = true := by
  constructor
  · intro hne
    by_contra hb
    apply hne
    apply Nat.eq_of_testBit_eq
    intro i
    rw [Nat.testBit_and, testBit_u32, testBit_BIT, Nat.zero_testBit]
    by_cases hi : h = i
    · subst hi; simp [hb]
    · simp [hi]
  · intro hb hz
    have := congrArg (fun v => Nat.testBit v h) hz
    simp [testBit_u32, testBit_BIT, hb, hh] at this

namespace GpioRalink

/-! ## gpio-ralink.c: edge polarity, mask and unmask -/

theorem irq_type_set_bit (x h i : Nat) :
    (u32 (x ||| u32 (BIT h))).testBit i
      = (decide (i < 32) && (x.testBit i || decide (h = i))) := by
  rw [testBit_u32, Nat.testBit_or, testBit_u32, testBit_BIT]
  by_cases hi : i < 32 <;> simp [hi]

theorem irq_type_clear_bit (x h i : Nat) :
    (x &&& not32 (u32 (BIT h))).testBit i
      = (decide (i < 32) && (x.testBit i && !decide (h = i))) := by
  rw [Nat.testBit_and, testBit_not32, testBit_u32, testBit_BIT]
  by_cases hi : i < 32 <;> by_cases hh : h = i <;> simp [hi, hh]

/-- C1: `ralink_gpio_irq_type` returns 0 and changes nothing but bit `hwirq` of
`rg->rising` and `rg->falling` (no register, no other field, no other bit of
the two fields).  For a type other than `IRQ_TYPE_PROBE` the bit of `rising` is
set iff the type has `IRQ_TYPE_EDGE_RISING` and the bit of `falling` iff it has
`IRQ_TYPE_EDGE_FALLING`.  For `IRQ_TYPE_PROBE` both fields stay as they were
when the pin already has an edge configured, and otherwise the pin gets both
edges. -/
theorem ralink_gpio_irq_type_spec (rg : ralink_gpio_chip) (hwirq type : Nat)
    (h : hwirq < 32) :
    (ralink_gpio_irq_type rg hwirq type).1 = 0 ∧
    { (ralink_gpio_irq_type rg hwirq type).2 with
        rising := rg.rising, falling := rg.falling } = rg ∧
    (∀ i, i < 32 → i ≠ hwirq →
      (ralink_gpio_irq_type rg hwirq type).2.rising.testBit i = rg.rising.testBit i ∧
      (ralink_gpio_irq_type rg hwirq type).2.falling.testBit i = rg.falling.testBit i) ∧
    (type ≠ IRQ_TYPE_PROBE →
      ((ralink_gpio_irq_type rg hwirq type).2.rising.testBit hwirq = true
        ↔ type &&& IRQ_TYPE_EDGE_RISING ≠ 0) ∧
      ((ralink_gpio_irq_type rg hwirq type).2.falling.testBit hwirq = true
        ↔ type &&& IRQ_TYPE_EDGE_FALLING ≠ 0)) ∧
    (type = IRQ_TYPE_PROBE →
      (rg.rising.testBit hwirq = true ∨ rg.falling.testBit hwirq = true →
        (ralink_gpio_irq_type rg hwirq type).2.rising = rg.rising ∧
        (ralink_gpio_irq_type rg hwirq type).2.falling = rg.falling) ∧
      (rg.rising.testBit hwirq = false ∧ rg.falling.testBit hwirq = false →
        (ralink_gpio_irq_type rg hwirq type).2.rising.testBit hwirq = true ∧
        (ralink_gpio_irq_type rg hwirq type).2.falling.testBit hwirq = true)) := by
  have hcond : (rg.rising ||| rg.falling) &&& u32 (BIT hwirq) ≠ 0
      ↔ (rg.rising.testBit hwirq = true ∨ rg.falling.testBit hwirq = true) := by
    rw [and_ne_zero_iff_testBit _ _ h, Nat.testBit_or]
    simp
  by_cases hp : type = IRQ_TYPE_PROBE
  · by_cases hc : (rg.rising ||| rg.falling) &&& u32 (BIT hwirq) ≠ 0
    · have hr : ralink_gpio_irq_type rg hwirq type = (0, rg) := by
        simp [ralink_gpio_irq_type, hp, hc]
      rw [hr]
      refine ⟨rfl, rfl, fun i _ _ => ⟨rfl, rfl⟩, fun hn => absurd hp hn, fun _ => ⟨fun _ => ⟨rfl, rfl⟩, ?_⟩⟩
      rintro ⟨h1, h2⟩
      rcases hcond.mp hc with h3 | h3
      · simp [h1] at h3
      · simp [h2] at h3
    · have hr : ralink_gpio_irq_type rg hwirq type
          = (0, { rg with rising := u32 (rg.rising ||| u32 (BIT hwirq)),
                          falling := u32 (rg.falling ||| u32 (BIT hwirq)) }) := by
        simp [ralink_gpio_irq_type, hp, hc]
        simp [IRQ_TYPE_EDGE_RISING, IRQ_TYPE_EDGE_FALLING]
      rw [hr]
      refine ⟨rfl, rfl, ?_, fun hn => absurd hp hn, fun _ => ⟨fun hx => absurd (hcond.mpr hx) hc, fun _ => ?_⟩⟩
      · intro i hi hne
        simp only [irq_type_set_bit]
        have : ¬ hwirq = i := fun e => hne e.symm
        simp [hi, this]
      · simp only [irq_type_set_bit]
        simp [h]
  · have hr : ralink_gpio_irq_type rg hwirq type
        = (0, { rg with
            rising := if type &&& IRQ_TYPE_EDGE_RISING ≠ 0
              then u32 (rg.rising ||| u32 (BIT hwirq))
              else rg.rising &&& not32 (u32 (BIT hwirq)),
            falling := if type &&& IRQ_TYPE_EDGE_FALLING ≠ 0
              then u32 (rg.falling ||| u32 (BIT hwirq))
              else rg.falling &&& not32 (u32 (BIT hwirq)) }) := by
      simp [ralink_gpio_irq_type, hp]
    rw [hr]
    refine ⟨rfl, rfl, ?_, fun _ => ⟨?_, ?_⟩, fun hn => absurd hn hp⟩
    · intro i hi hne
      have hne2 : ¬ hwirq = i := fun e => hne e.symm
      constructor
      · show (if type &&& IRQ_TYPE_EDGE_RISING ≠ 0 then _ else _ : Nat).testBit i = _
        split
        · rw [irq_type_set_bit]; simp [hi, hne2]
        · rw [irq_type_clear_bit]; simp [hi, hne2]
      · show (if type &&& IRQ_TYPE_EDGE_FALLING ≠ 0 then _ else _ : Nat).testBit i = _
        split
        · rw [irq_type_set_bit]; simp [hi, hne2]
        · rw [irq_type_clear_bit]; simp [hi, hne2]
    · show (if type &&& IRQ_TYPE_EDGE_RISING ≠ 0 then _ else _ : Nat).testBit hwirq = true ↔ _
      split
      · rename_i hc; rw [irq_type_set_bit]; simp [h, hc]
      · rename_i hc; rw [irq_type_clear_bit]; simp [hc]
    · show (if type &&& IRQ_TYPE_EDGE_FALLING ≠ 0 then _ else _ : Nat).testBit hwirq = true ↔ _
      split
      · rename_i hc; rw [irq_type_set_bit]; simp [h, hc]
      · rename_i hc; rw [irq_type_clear_bit]; simp [hc]

/-- C1, at a concrete input: pin 3 of a chip that has pin 3 configured for the
rising edge, asked for the falling edge. -/
theorem ralink_gpio_irq_type_spec_witness :
    (3 : Nat) < 32 ∧
    ((ralink_gpio_irq_type
        { chip := { base := 0, ngpio := 24 }, regs := [], hwregs := fun _ => 0, wlog := [],
          membase := 1, domain := none, irq := 0, rising := 8, falling := 0 } 3
        IRQ_TYPE_EDGE_FALLING).2.falling.testBit 3 = true
      ↔ IRQ_TYPE_EDGE_FALLING &&& IRQ_TYPE_EDGE_FALLING ≠ 0) :=
  ⟨by decide,
   ((ralink_gpio_irq_type_spec
      { chip := { base := 0, ngpio := 24 }, regs := [], hwregs := fun _ => 0, wlog := [],
        membase := 1, domain := none, irq := 0, rising := 8, falling := 0 } 3
      IRQ_TYPE_EDGE_FALLING (by decide)).2.2.2.1 (by decide)).2⟩

theorem r32_w32_same (rg : ralink_gpio_chip) (reg val : Nat) :
    rt_gpio_r32 (rt_gpio_w32 rg reg val) reg = u32 val := by
  simp [rt_gpio_r32, rt_gpio_w32, u32]

theorem r32_w32_other (rg : ralink_gpio_chip) (reg reg2 val : Nat) (h : reg2 ≠ reg) :
    rt_gpio_r32 (rt_gpio_w32 rg reg val) reg2 = rt_gpio_r32 rg reg2 := by
  simp [rt_gpio_r32, rt_gpio_w32, Function.update, h]

theorem r32_mask_rena (rg : ralink_gpio_chip) (hwirq : Nat) :
    rt_gpio_r32 (ralink_gpio_irq_mask rg hwirq) GPIO_REG_RENA
      = u32 (rt_gpio_r32 rg GPIO_REG_RENA &&& not32 (BIT hwirq)) := by
  unfold ralink_gpio_irq_mask
  exact r32_w32_same _ _ _

theorem r32_mask_fena (rg : ralink_gpio_chip) (hwirq : Nat) :
    rt_gpio_r32 (ralink_gpio_irq_mask rg hwirq) GPIO_REG_FENA
      = u32 (rt_gpio_r32 rg GPIO_REG_FENA &&& not32 (BIT hwirq)) := by
  unfold ralink_gpio_irq_mask
  rw [r32_w32_other _ _ _ _ (by decide), r32_w32_same]

theorem r32_unmask_rena (rg : ralink_gpio_chip) (hwirq : Nat) :
    rt_gpio_r32 (ralink_gpio_irq_unmask rg hwirq) GPIO_REG_RENA
      = u32 (rt_gpio_r32 rg GPIO_REG_RENA ||| (BIT hwirq &&& rg.rising)) := by
  unfold ralink_gpio_irq_unmask
  rw [r32_w32_other _ _ _ _ (by decide), r32_w32_same]

theorem r32_unmask_fena (rg : ralink_gpio_chip) (hwirq : Nat) :
    rt_gpio_r32 (ralink_gpio_irq_unmask rg hwirq) GPIO_REG_FENA
      = u32 (rt_gpio_r32 rg GPIO_REG_FENA ||| (BIT hwirq &&& rg.falling)) := by
  unfold ralink_gpio_irq_unmask
  rw [r32_w32_same]
  rfl

theorem testBit_r32_ge (rg : ralink_gpio_chip) (reg i : Nat) (h : 32 ≤ i) :
    (rt_gpio_r32 rg reg).testBit i = false := by
  unfold rt_gpio_r32
  rw [testBit_u32]
  simp; omega

theorem testBit_mask_val (x h i : Nat) :
    (u32 (x &&& not32 (BIT h))).testBit i
      = (decide (i < 32) && (x.testBit i && !decide (h = i))) := by
  rw [testBit_u32, Nat.testBit_and, testBit_not32, testBit_BIT]
  by_cases hi : i < 32 <;> by_cases hh : h = i <;> simp [hi, hh]

theorem testBit_unmask_val (x p h i : Nat) :
    (u32 (x ||| (BIT h &&& p))).testBit i
      = (decide (i < 32) && (x.testBit i || (decide (h = i) && p.testBit i))) := by
  rw [testBit_u32, Nat.testBit_or, Nat.testBit_and, testBit_BIT]

theorem mask_val_idem (x h : Nat) :
    u32 (u32 (x &&& not32 (BIT h)) &&& not32 (BIT h)) = u32 (x &&& not32 (BIT h)) := by
  apply Nat.eq_of_testBit_eq
  intro i
  rw [testBit_mask_val, testBit_mask_val]
  by_cases hi : i < 32 <;> by_cases hh : h = i <;> simp [hi, hh]

/-- C2, as stated, fails: on a chip whose pin 0 is still enabled in
`GPIO_REG_RENA` while `rg->rising` has the pin clear, unmasking pin 0 leaves the
bit of `GPIO_REG_RENA` set, so it differs from the bit of `rg->rising`. -/
theorem ralink_gpio_irq_unmask_not_polarity :
    (0 : Nat) < 32 ∧
    (rt_gpio_r32 (ralink_gpio_irq_unmask stale_rena_chip 0) GPIO_REG_RENA).testBit 0 = true ∧
    stale_rena_chip.rising.testBit 0 = false := by
  refine ⟨by decide, ?_, ?_⟩
  · rw [r32_unmask_rena, testBit_unmask_val]
    simp [rt_gpio_r32, stale_rena_chip, u32]
  · simp [stale_rena_chip]

/-- C2, amended: `ralink_gpio_irq_unmask` only enables.  After the call the bit of
pin `hwirq` in `GPIO_REG_RENA` is set iff it was set before or the bit of
`rg->rising` is set, and likewise for `GPIO_REG_FENA` and `rg->falling`; the bits
of every other pin in both registers are unchanged.  So the two bits equal the
configured polarity whenever the pin was masked before, in particular when
the unmask follows `ralink_gpio_irq_mask`. -/
theorem ralink_gpio_irq_unmask_spec (rg : ralink_gpio_chip) (hwirq : Nat)
    (h : hwirq < 32) :
    (rt_gpio_r32 (ralink_gpio_irq_unmask rg hwirq) GPIO_REG_RENA).testBit hwirq
      = ((rt_gpio_r32 rg GPIO_REG_RENA).testBit hwirq || rg.rising.testBit hwirq) ∧
    (rt_gpio_r32 (ralink_gpio_irq_unmask rg hwirq) GPIO_REG_FENA).testBit hwirq
      = ((rt_gpio_r32 rg GPIO_REG_FENA).testBit hwirq || rg.falling.testBit hwirq) ∧
    (∀ i, i ≠ hwirq →
      (rt_gpio_r32 (ralink_gpio_irq_unmask rg hwirq) GPIO_REG_RENA).testBit i
        = (rt_gpio_r32 rg GPIO_REG_RENA).testBit i ∧
      (rt_gpio_r32 (ralink_gpio_irq_unmask rg hwirq) GPIO_REG_FENA).testBit i
        = (rt_gpio_r32 rg GPIO_REG_FENA).testBit i) ∧
    ((rt_gpio_r32 rg GPIO_REG_RENA).testBit hwirq = false →
      (rt_gpio_r32 (ralink_gpio_irq_unmask rg hwirq) GPIO_REG_RENA).testBit hwirq
        = rg.rising.testBit hwirq) ∧
    ((rt_gpio_r32 rg GPIO_REG_FENA).testBit hwirq = false →
      (rt_gpio_r32 (ralink_gpio_irq_unmask rg hwirq) GPIO_REG_FENA).testBit hwirq
        = rg.falling.testBit hwirq) ∧
    (rt_gpio_r32 (ralink_gpio_irq_unmask (ralink_gpio_irq_mask rg hwirq) hwirq)
        GPIO_REG_RENA).testBit hwirq = rg.rising.testBit hwirq ∧
    (rt_gpio_r32 (ralink_gpio_irq_unmask (ralink_gpio_irq_mask rg hwirq) hwirq)
        GPIO_REG_FENA).testBit hwirq = rg.falling.testBit hwirq := by
  have hR : ∀ (g : ralink_gpio_chip),
      (rt_gpio_r32 (ralink_gpio_irq_unmask g hwirq) GPIO_REG_RENA).testBit hwirq
        = ((rt_gpio_r32 g GPIO_REG_RENA).testBit hwirq || g.rising.testBit hwirq) := by
    intro g
    rw [r32_unmask_rena, testBit_unmask_val]; simp [h]
  have hF : ∀ (g : ralink_gpio_chip),
      (rt_gpio_r32 (ralink_gpio_irq_unmask g hwirq) GPIO_REG_FENA).testBit hwirq
        = ((rt_gpio_r32 g GPIO_REG_FENA).testBit hwirq || g.falling.testBit hwirq) := by
    intro g
    rw [r32_unmask_fena, testBit_unmask_val]; simp [h]
  have hmf : (ralink_gpio_irq_mask rg hwirq).falling = rg.falling := rfl
  have hmr : (ralink_gpio_irq_mask rg hwirq).rising = rg.rising := rfl
  refine ⟨hR rg, hF rg, ?_, ?_, ?_, ?_, ?_⟩
  · intro i hne
    have hne2 : ¬ hwirq = i := fun e => hne e.symm
    rw [r32_unmask_rena, r32_unmask_fena, testBit_unmask_val, testBit_unmask_val]
    by_cases hi : i < 32
    · simp [hi, hne2]
    · simp [hi, testBit_r32_ge rg _ i (by omega)]
  · intro h0; rw [hR, h0]; simp
  · intro h0; rw [hF, h0]; simp
  · rw [hR, r32_mask_rena, testBit_mask_val, hmr]; simp
  · rw [hF, r32_mask_fena, testBit_mask_val, hmf]; simp

/-- C2, amended, at a concrete input: pin 0 of `stale_rena_chip`. -/
theorem ralink_gpio_irq_unmask_spec_witness :
    (0 : Nat) < 32 ∧
    (rt_gpio_r32 (ralink_gpio_irq_unmask stale_rena_chip 0) GPIO_REG_RENA).testBit 0
      = ((rt_gpio_r32 stale_rena_chip GPIO_REG_RENA).testBit 0
          || stale_rena_chip.rising.testBit 0) :=
  ⟨by decide, (ralink_gpio_irq_unmask_spec stale_rena_chip 0 (by decide)).1⟩

/-- C3: `ralink_gpio_irq_mask`, which the irq chip table installs both as `irq_mask`
and as `irq_mask_ack`, clears bit `hwirq` of `GPIO_REG_RENA` and `GPIO_REG_FENA`,
leaves every other bit of the two registers as it was, writes these two
registers only, leaves `rg->rising`, `rg->falling` and every other field of the
chip unchanged, and is idempotent. -/
theorem ralink_gpio_irq_mask_spec (rg : ralink_gpio_chip) (hwirq : Nat) (_h : hwirq < 32) :
    ralink_gpio_irq_chip.irq_mask = ralink_gpio_irq_mask ∧
    ralink_gpio_irq_chip.irq_mask_ack = ralink_gpio_irq_mask ∧
    (rt_gpio_r32 (ralink_gpio_irq_mask rg hwirq) GPIO_REG_RENA).testBit hwirq = false ∧
    (rt_gpio_r32 (ralink_gpio_irq_mask rg hwirq) GPIO_REG_FENA).testBit hwirq = false ∧
    (∀ i, i ≠ hwirq →
      (rt_gpio_r32 (ralink_gpio_irq_mask rg hwirq) GPIO_REG_RENA).testBit i
        = (rt_gpio_r32 rg GPIO_REG_RENA).testBit i ∧
      (rt_gpio_r32 (ralink_gpio_irq_mask rg hwirq) GPIO_REG_FENA).testBit i
        = (rt_gpio_r32 rg GPIO_REG_FENA).testBit i) ∧
    (∃ fena rena, (ralink_gpio_irq_mask rg hwirq).wlog
        = rg.wlog ++ [(GPIO_REG_FENA, fena), (GPIO_REG_RENA, rena)]) ∧
    (∀ reg, reg ≠ GPIO_REG_RENA → reg ≠ GPIO_REG_FENA →
      (ralink_gpio_irq_mask rg hwirq).hwregs reg = rg.hwregs reg) ∧
    { ralink_gpio_irq_mask rg hwirq with hwregs := rg.hwregs, wlog := rg.wlog } = rg ∧
    (ralink_gpio_irq_mask rg hwirq).rising = rg.rising ∧
    (ralink_gpio_irq_mask rg hwirq).falling = rg.falling ∧
    { ralink_gpio_irq_mask (ralink_gpio_irq_mask rg hwirq) hwirq with wlog := [] }
      = { ralink_gpio_irq_mask rg hwirq with wlog := [] } := by
  refine ⟨rfl, rfl, ?_, ?_, ?_, ?_, ?_, rfl, rfl, rfl, ?_⟩
  · rw [r32_mask_rena, testBit_mask_val]; simp
  · rw [r32_mask_fena, testBit_mask_val]; simp
  · intro i hne
    have hne2 : ¬ hwirq = i := fun e => hne e.symm
    rw [r32_mask_rena, r32_mask_fena, testBit_mask_val, testBit_mask_val]
    by_cases hi : i < 32
    · simp [hi, hne2]
    · simp [hi, testBit_r32_ge rg _ i (by omega)]
  · exact ⟨u32 (rt_gpio_r32 rg GPIO_REG_FENA &&& not32 (BIT hwirq)),
      u32 (rt_gpio_r32 rg GPIO_REG_RENA &&& not32 (BIT hwirq)),
      by simp [ralink_gpio_irq_mask, rt_gpio_w32]⟩
  · intro reg h1 h2
    simp [ralink_gpio_irq_mask, rt_gpio_w32, Function.update, h1, h2]
  · have hfun : (ralink_gpio_irq_mask (ralink_gpio_irq_mask rg hwirq) hwirq).hwregs
        = (ralink_gpio_irq_mask rg hwirq).hwregs := by
      funext reg
      have e1 : (ralink_gpio_irq_mask rg hwirq).hwregs GPIO_REG_RENA
          = u32 (rt_gpio_r32 rg GPIO_REG_RENA &&& not32 (BIT hwirq)) := by
        simp [ralink_gpio_irq_mask, rt_gpio_w32]
      have e2 : (ralink_gpio_irq_mask rg hwirq).hwregs GPIO_REG_FENA
          = u32 (rt_gpio_r32 rg GPIO_REG_FENA &&& not32 (BIT hwirq)) := by
        simp [ralink_gpio_irq_mask, rt_gpio_w32, Function.update, GPIO_REG_FENA,
          GPIO_REG_RENA]
      by_cases hr : reg = GPIO_REG_RENA
      · subst hr
        rw [e1]
        show (rt_gpio_w32 _ GPIO_REG_RENA _).hwregs GPIO_REG_RENA = _
        simp only [rt_gpio_w32, Function.update_same]
        rw [r32_mask_rena, mask_val_idem]
      · by_cases hf : reg = GPIO_REG_FENA
        · subst hf
          rw [e2]
          show (rt_gpio_w32 (rt_gpio_w32 _ GPIO_REG_FENA _) GPIO_REG_RENA _).hwregs
            GPIO_REG_FENA = _
          simp only [rt_gpio_w32]
          rw [Function.update_noteq (by decide), Function.update_same]
          rw [r32_mask_fena, mask_val_idem]
        · simp [ralink_gpio_irq_mask, rt_gpio_w32, Function.update, hr, hf]
    show ({ ralink_gpio_irq_mask (ralink_gpio_irq_mask rg hwirq) hwirq with wlog := [] }
        : ralink_gpio_chip)
      = { ralink_gpio_irq_mask rg hwirq with wlog := [] }
    rw [ralink_gpio_chip.mk.injEq]
    exact ⟨rfl, rfl, hfun, rfl, rfl, rfl, rfl, rfl, rfl⟩

/-- C3, at a concrete input: masking pin 0 of `stale_rena_chip`. -/
theorem ralink_gpio_irq_mask_spec_witness :
    (0 : Nat) < 32 ∧
    (rt_gpio_r32 (ralink_gpio_irq_mask stale_rena_chip 0) GPIO_REG_RENA).testBit 0 = false :=
  ⟨by decide, (ralink_gpio_irq_mask_spec stale_rena_chip 0 (by decide)).2.2.1⟩


/-! ## gpio-ralink.c: the chained handler -/

theorem testBit_r32_lt (rg : ralink_gpio_chip) (reg b : Nat)
    (h : (rt_gpio_r32 rg reg).testBit b = true) : b < 32 := by
  by_contra hb
  rw [testBit_r32_ge rg reg b (by omega)] at h
  exact Bool.false_ne_true h

theorem u32_BIT (b : Nat) (h : b < 32) : u32 (BIT b) = BIT b := by
  unfold u32 BIT
  rw [Nat.one_shiftLeft]
  exact Nat.mod_eq_of_lt (Nat.pow_lt_pow_right (by decide) h)

theorem for_each_set_bit_range (i : Nat) (domain : irq_domain) (pending size : Nat)
    (hp : ∀ b, pending.testBit b = true → b < 32) (n k : Nat) (hn : size - k = n)
    (hk : k ≤ size) :
    for_each_set_bit_from i domain pending size (find_next_bit pending size k)
      = ((List.range' k n).filter (fun bit => pending.testBit bit)).flatMap
          (fun bit => [irq_event.generic_handle_irq (domain.revmap bit),
                       irq_event.rt_gpio_w32 i GPIO_REG_INT (BIT bit)]) := by
  induction n generalizing k with
  | zero =>
    have hks : ¬ k < size := by omega
    unfold find_next_bit
    simp only [hks, if_false]
    unfold for_each_set_bit_from
    have : ¬ size < size := Nat.lt_irrefl _
    simp [this]
  | succ n ih =>
    have hks : k < size := by omega
    have ih1 := ih (k + 1) (by omega) (by omega)
    unfold find_next_bit
    simp only [hks, if_true]
    rw [List.range'_succ, List.filter_cons]
    by_cases hb : pending.testBit k = true
    · simp only [hb, if_true]
      unfold for_each_set_bit_from
      simp only [hks, dite_true]
      rw [ih1, u32_BIT k (hp k hb)]
      simp [List.flatMap_cons]
    · simp only [hb]
      exact ih1

theorem handler_turn_eq (i : Nat) (domain : irq_domain) :
    ralink_gpio_irq_handler_turn i domain = fan_out_turn i domain := by
  unfold ralink_gpio_irq_handler_turn fan_out_turn pending_pins
  rw [List.range_eq_range']
  exact for_each_set_bit_range i domain _ _
    (fun b hb => testBit_r32_lt _ _ b hb) _ 0 rfl (Nat.zero_le _)

theorem handler_from_eq (irq_map : List irq_domain) (i : Nat) :
    ralink_gpio_irq_handler_from i irq_map
      = (irq_map.enumFrom i).flatMap (fun e => fan_out_turn e.1 e.2) := by
  induction irq_map generalizing i with
  | nil => simp [ralink_gpio_irq_handler_from]
  | cons d ds ih =>
    simp [ralink_gpio_irq_handler_from, List.enumFrom, List.flatMap_cons, ih,
      handler_turn_eq]

theorem mem_pending_pins (pending ngpio bit : Nat) :
    bit ∈ pending_pins pending ngpio ↔ bit < ngpio ∧ pending.testBit bit = true := by
  simp [pending_pins]

theorem pending_pins_ascending (pending ngpio : Nat) :
    (pending_pins pending ngpio).Pairwise (fun a b => a < b) :=
  (List.pairwise_lt_range ngpio).filter _

theorem BIT_injective (a b : Nat) (h : BIT a = BIT b) : a = b := by
  unfold BIT at h
  rw [Nat.one_shiftLeft, Nat.one_shiftLeft] at h
  exact Nat.pow_right_injective (Nat.le_refl 2) h

/-- C4: `ralink_gpio_irq_handler` fans the shared interrupt out.  Its trace of
dispatches and register writes is, for the registered domains in registration
order, and for each of them for the pins below `ngpio` that are set in the value
of `GPIO_REG_INT` read at the start of its turn, in ascending order and once
each: the dispatch of the virtual irq the domain maps to the pin, immediately
followed by the write of `BIT(pin)` to `GPIO_REG_INT` of that chip.  A pending
bit at or above `ngpio` is not acknowledged, and a chip with no pending pin
produces no event. -/
theorem ralink_gpio_irq_handler_fan_out (irq_map : List irq_domain) :
    ralink_gpio_irq_handler irq_map = fan_out irq_map ∧
    (∀ pending ngpio bit,
      bit ∈ pending_pins pending ngpio ↔ bit < ngpio ∧ pending.testBit bit = true) ∧
    (∀ pending ngpio, (pending_pins pending ngpio).Pairwise (fun a b => a < b)) ∧
    (∀ i domain bit, domain.host_data.chip.ngpio ≤ bit →
      irq_event.rt_gpio_w32 i GPIO_REG_INT (BIT bit)
        ∉ ralink_gpio_irq_handler_turn i domain) ∧
    (∀ i domain,
      (∀ bit, bit < domain.host_data.chip.ngpio →
        (rt_gpio_r32 domain.host_data GPIO_REG_INT).testBit bit = false) →
      ralink_gpio_irq_handler_turn i domain = []) := by
  refine ⟨?_, mem_pending_pins, pending_pins_ascending, ?_, ?_⟩
  · unfold ralink_gpio_irq_handler fan_out
    exact handler_from_eq irq_map 0
  · intro i domain bit hge hmem
    rw [handler_turn_eq] at hmem
    unfold fan_out_turn at hmem
    rw [List.mem_flatMap] at hmem
    obtain ⟨b, hb, hin⟩ := hmem
    rw [mem_pending_pins] at hb
    simp only [List.mem_cons, List.mem_singleton, irq_event.rt_gpio_w32.injEq,
      true_and, List.not_mem_nil, or_false] at hin
    rcases hin with hin | hin
    · cases hin
    · have := BIT_injective _ _ hin
      omega
  · intro i domain hno
    rw [handler_turn_eq]
    unfold fan_out_turn
    have : pending_pins (rt_gpio_r32 domain.host_data GPIO_REG_INT)
        domain.host_data.chip.ngpio = [] := by
      rw [List.eq_nil_iff_forall_not_mem]
      intro b hb
      rw [mem_pending_pins] at hb
      rw [hno b hb.1] at hb
      exact Bool.false_ne_true hb.2
    rw [this]
    rfl

/-! ## gpio-ralink.c: probe -/

theorem irq_init_chip (pdev : platform_device) (g : irq_globals) (rg : ralink_gpio_chip) :
    (ralink_gpio_irq_init pdev g rg).2.chip = rg.chip := by
  by_cases h1 : g.irq_map_count ≥ MAP_MAX
  · simp [ralink_gpio_irq_init, h1]
  · by_cases h2 : pdev.irq_of_parse_and_map = 0
    · simp [ralink_gpio_irq_init, h1, h2]
    · rcases hd : pdev.irq_domain_add_linear with _ | d
      · simp [ralink_gpio_irq_init, h1, h2, hd]
      · simp [ralink_gpio_irq_init, h1, h2, hd, rt_gpio_w32]

theorem irq_init_wlog (pdev : platform_device) (g : irq_globals) (rg : ralink_gpio_chip) :
    ∃ rest, (ralink_gpio_irq_init pdev g rg).2.wlog = rg.wlog ++ rest := by
  by_cases h1 : g.irq_map_count ≥ MAP_MAX
  · exact ⟨[], by simp [ralink_gpio_irq_init, h1]⟩
  · by_cases h2 : pdev.irq_of_parse_and_map = 0
    · exact ⟨[], by simp [ralink_gpio_irq_init, h1, h2]⟩
    · rcases hd : pdev.irq_domain_add_linear with _ | d
      · exact ⟨[], by simp [ralink_gpio_irq_init, h1, h2, hd]⟩
      · exact ⟨[(GPIO_REG_RENA, u32 0), (GPIO_REG_FENA, u32 0)],
          by simp [ralink_gpio_irq_init, h1, h2, hd, rt_gpio_w32]⟩

theorem be32_to_cpu_lt (c : be32) : be32_to_cpu c < 2 ^ 32 := by
  unfold be32_to_cpu
  have h0 := Nat.mod_lt c.b0 (show 256 > 0 by decide)
  have h1 := Nat.mod_lt c.b1 (show 256 > 0 by decide)
  have h2 := Nat.mod_lt c.b2 (show 256 > 0 by decide)
  have h3 := Nat.mod_lt c.b3 (show 256 > 0 by decide)
  omega

theorem s32_eq (x : Nat) (h : x < 2 ^ 32) :
    s32 x = if x < 2 ^ 31 then (x : Int) else (x : Int) - 2 ^ 32 := by
  unfold s32
  rw [Nat.mod_eq_of_lt h]

/-- The chip as probe has set it up when it calls `ralink_gpio_irq_init`. -/
theorem probe_success (pdev : platform_device) (g : irq_globals) (res : Nat)
    (map : List Nat) (ngpio : be32) (hres : pdev.res = some res)
    (hk : pdev.kzalloc_ok = true) (hio : pdev.ioremap_resource ≠ 0)
    (hmap : pdev.register_map = some map) (hng : pdev.num_gpios = some ngpio) :
    ∃ rg0 : ralink_gpio_chip,
      rg0.wlog = [(GPIO_REG_POL, 0)] ∧
      rg0.chip.ngpio = u16 (be32_to_cpu ngpio) ∧
      rg0.chip.base = (match pdev.gpio_base with
        | some gpiobase => s32 (be32_to_cpu gpiobase)
        | none => -1) ∧
      ralink_gpio_probe pdev g =
        { ret := pdev.gpiochip_add (ralink_gpio_irq_init pdev g rg0).2.chip,
          writes := (ralink_gpio_irq_init pdev g rg0).2.wlog,
          registered := some (ralink_gpio_irq_init pdev g rg0).2.chip,
          rg := some (ralink_gpio_irq_init pdev g rg0).2,
          globals := (ralink_gpio_irq_init pdev g rg0).1 } := by
  rcases hg : pdev.gpio_base with _ | gpiobase
  · refine ⟨rt_gpio_w32
      { chip := { base := -1, ngpio := u16 (be32_to_cpu ngpio) }, regs := map,
        hwregs := pdev.devregs, wlog := [], membase := pdev.ioremap_resource,
        domain := none, irq := 0, rising := 0, falling := 0 } GPIO_REG_POL 0, ?_, rfl, rfl, ?_⟩
    · simp [rt_gpio_w32, u32]
    · simp [ralink_gpio_probe, hres, hk, hio, hmap, hng, hg]
  · refine ⟨rt_gpio_w32
      { chip := { base := s32 (be32_to_cpu gpiobase), ngpio := u16 (be32_to_cpu ngpio) },
        regs := map,
        hwregs := pdev.devregs, wlog := [], membase := pdev.ioremap_resource,
        domain := none, irq := 0, rising := 0, falling := 0 } GPIO_REG_POL 0, ?_, rfl, rfl, ?_⟩
    · simp [rt_gpio_w32, u32]
    · simp [ralink_gpio_probe, hres, hk, hio, hmap, hng, hg]

/-- C5, as stated, fails: with "ralink,num-gpios" `00 01 00 18` and
"ralink,gpio-base" `80 00 00 00` all five checks pass and the decoded values are
65560 and 2147483648, but the chip handed to `gpiochip_add` has `ngpio` 24 and
`base` -2147483648: the `u16` field keeps the low 16 bits and the `int` field
reads the value as a signed number. -/
theorem ralink_gpio_probe_truncates_cells :
    wide_cells_pdev.res ≠ none ∧ wide_cells_pdev.kzalloc_ok = true ∧
    wide_cells_pdev.ioremap_resource ≠ 0 ∧ wide_cells_pdev.register_map ≠ none ∧
    wide_cells_pdev.num_gpios = some { b0 := 0, b1 := 1, b2 := 0, b3 := 24 } ∧
    wide_cells_pdev.gpio_base = some { b0 := 128, b1 := 0, b2 := 0, b3 := 0 } ∧
    be32_to_cpu { b0 := 0, b1 := 1, b2 := 0, b3 := 24 } = 65560 ∧
    be32_to_cpu { b0 := 128, b1 := 0, b2 := 0, b3 := 0 } = 2147483648 ∧
    (ralink_gpio_probe wide_cells_pdev irq_globals_init).registered
      = some { base := -2147483648, ngpio := 24 } := by
  refine ⟨by decide, rfl, by decide, by decide, rfl, rfl, by decide, by decide, ?_⟩
  simp [ralink_gpio_probe, wide_cells_pdev, irq_globals_init, ralink_gpio_irq_init,
    MAP_MAX, rt_gpio_w32, be32_to_cpu, u16, s32]

/-- C5, amended: `ralink_gpio_probe` returns `-ENOMEM` when the memory resource is
missing, else `-ENOMEM` when the chip allocation fails, else `-ENOMEM` when the
remap yields no base, else `-EINVAL` when "ralink,register-map" cannot be read,
else `-EINVAL` when "ralink,num-gpios" is absent; on each of these failures no
register is written and no chip is registered.  When all five checks pass, the
first register write is 0 to `GPIO_REG_POL`, the chip handed to `gpiochip_add`
has `ngpio` the decoded "ralink,num-gpios" reduced modulo `2^16` (the decoded
value itself when that is below 65536) and `base` the decoded
"ralink,gpio-base" read as a signed 32-bit number (the decoded value itself
when that is below `2^31`; -1 when the property is absent), and the return
value is the result of `gpiochip_add`. -/
theorem ralink_gpio_probe_spec (pdev : platform_device) (g : irq_globals) :
    (pdev.res = none → (ralink_gpio_probe pdev g).ret = -ENOMEM) ∧
    (pdev.res ≠ none → pdev.kzalloc_ok = false →
      (ralink_gpio_probe pdev g).ret = -ENOMEM) ∧
    (pdev.res ≠ none → pdev.kzalloc_ok = true → pdev.ioremap_resource = 0 →
      (ralink_gpio_probe pdev g).ret = -ENOMEM) ∧
    (pdev.res ≠ none → pdev.kzalloc_ok = true → pdev.ioremap_resource ≠ 0 →
      pdev.register_map = none → (ralink_gpio_probe pdev g).ret = -EINVAL) ∧
    (pdev.res ≠ none → pdev.kzalloc_ok = true → pdev.ioremap_resource ≠ 0 →
      pdev.register_map ≠ none → pdev.num_gpios = none →
      (ralink_gpio_probe pdev g).ret = -EINVAL) ∧
    (pdev.res = none ∨ pdev.kzalloc_ok = false ∨ pdev.ioremap_resource = 0
        ∨ pdev.register_map = none ∨ pdev.num_gpios = none →
      (ralink_gpio_probe pdev g).writes = [] ∧
      (ralink_gpio_probe pdev g).registered = none ∧
      (ralink_gpio_probe pdev g).globals = g) ∧
    (∀ ngpio, pdev.res ≠ none → pdev.kzalloc_ok = true → pdev.ioremap_resource ≠ 0 →
      pdev.register_map ≠ none → pdev.num_gpios = some ngpio →
      ∃ chip rest,
        (ralink_gpio_probe pdev g).writes = (GPIO_REG_POL, 0) :: rest ∧
        (ralink_gpio_probe pdev g).registered = some chip ∧
        chip.ngpio = be32_to_cpu ngpio % 2 ^ 16 ∧
        (be32_to_cpu ngpio < 2 ^ 16 → chip.ngpio = be32_to_cpu ngpio) ∧
        chip.base = (match pdev.gpio_base with
          | some gpiobase =>
            if be32_to_cpu gpiobase < 2 ^ 31 then (be32_to_cpu gpiobase : Int)
            else (be32_to_cpu gpiobase : Int) - 2 ^ 32
          | none => -1) ∧
        (ralink_gpio_probe pdev g).ret = pdev.gpiochip_add chip) := by
  rcases hres : pdev.res with _ | res
  · simp [ralink_gpio_probe, hres, probe_fail]
  · rcases hk : pdev.kzalloc_ok with _ | _
    · simp [ralink_gpio_probe, hres, hk, probe_fail]
    · by_cases hio : pdev.ioremap_resource = 0
      · simp [ralink_gpio_probe, hres, hk, hio, probe_fail]
      · rcases hmap : pdev.register_map with _ | map
        · simp [ralink_gpio_probe, hres, hk, hio, hmap, probe_fail]
        · rcases hng : pdev.num_gpios with _ | ngpio
          · simp [ralink_gpio_probe, hres, hk, hio, hmap, hng, probe_fail]
          · simp only [hio, false_or, reduceCtorEq, ne_eq, not_false_eq_true,
              forall_true_left, false_implies, true_and, not_true_eq_false, and_true,
              Option.some.injEq, forall_eq']
            obtain ⟨rg0, hlog, hn, hb, heq⟩ :=
              probe_success pdev g res map ngpio hres hk hio hmap hng
            obtain ⟨rest, hrest⟩ := irq_init_wlog pdev g rg0
            refine ⟨(ralink_gpio_irq_init pdev g rg0).2.chip, rest, ?_, ?_, ?_, ?_, ?_, ?_⟩
            · rw [heq]; simp only; rw [hrest, hlog]; rfl
            · rw [heq]
            · rw [irq_init_chip, hn]; rfl
            · intro hlt
              rw [irq_init_chip, hn]
              exact Nat.mod_eq_of_lt hlt
            · rw [irq_init_chip, hb]
              cases pdev.gpio_base with
              | none => rfl
              | some gpiobase => exact s32_eq _ (be32_to_cpu_lt gpiobase)
            · rw [heq]

end GpioRalink

namespace Ar5210

/-! ## ar5210_beacon.c -/

theorem call_events_append (ah ah2 : ath_hal_5210) (evs : List reg_event)
    (h : ah2.trace = ah.trace ++ evs) : call_events ah ah2 = evs := by
  unfold call_events
  rw [h, List.drop_left]

theorem ar5210SetBeaconTimers_trace (ah : ath_hal_5210) (bt : HAL_BEACON_TIMERS) :
    (ar5210SetBeaconTimers ah bt).trace
      = ah.trace ++ [reg_event.wr ar_reg.AR_TIMER0 bt.bt_nexttbtt,
         reg_event.wr ar_reg.AR_TIMER1 bt.bt_nextdba,
         reg_event.wr ar_reg.AR_TIMER2 bt.bt_nextswba,
         reg_event.wr ar_reg.AR_TIMER3 bt.bt_nextatim,
         reg_event.wr ar_reg.AR_BEACON bt.bt_intval] := by
  simp [ar5210SetBeaconTimers, OS_REG_WRITE]

theorem ar5210SetBeaconTimers_events (ah : ath_hal_5210) (bt : HAL_BEACON_TIMERS) :
    call_events ah (ar5210SetBeaconTimers ah bt)
      = [reg_event.wr ar_reg.AR_TIMER0 bt.bt_nexttbtt,
         reg_event.wr ar_reg.AR_TIMER1 bt.bt_nextdba,
         reg_event.wr ar_reg.AR_TIMER2 bt.bt_nextswba,
         reg_event.wr ar_reg.AR_TIMER3 bt.bt_nextatim,
         reg_event.wr ar_reg.AR_BEACON bt.bt_intval] :=
  call_events_append ah _ _ (ar5210SetBeaconTimers_trace ah bt)

/-- C8: `ar5210SetBeaconTimers` performs five register writes and no read, in the
order `AR_TIMER0 := bt_nexttbtt`, `AR_TIMER1 := bt_nextdba`,
`AR_TIMER2 := bt_nextswba`, `AR_TIMER3 := bt_nextatim`, `AR_BEACON := bt_intval`;
the write to `AR_BEACON` is the last one. -/
theorem ar5210SetBeaconTimers_writes (ah : ath_hal_5210) (bt : HAL_BEACON_TIMERS) :
    call_events ah (ar5210SetBeaconTimers ah bt)
      = [reg_event.wr ar_reg.AR_TIMER0 bt.bt_nexttbtt,
         reg_event.wr ar_reg.AR_TIMER1 bt.bt_nextdba,
         reg_event.wr ar_reg.AR_TIMER2 bt.bt_nextswba,
         reg_event.wr ar_reg.AR_TIMER3 bt.bt_nextatim,
         reg_event.wr ar_reg.AR_BEACON bt.bt_intval] ∧
    (ar5210SetBeaconTimers ah bt).trace
      = ah.trace ++ call_events ah (ar5210SetBeaconTimers ah bt) ∧
    (call_events ah (ar5210SetBeaconTimers ah bt)).length = 5 ∧
    (∀ reg, reg_event.rd reg ∉ call_events ah (ar5210SetBeaconTimers ah bt)) ∧
    (call_events ah (ar5210SetBeaconTimers ah bt)).getLast?
      = some (reg_event.wr ar_reg.AR_BEACON bt.bt_intval) := by
  have ht := ar5210SetBeaconTimers_trace ah bt
  have he := ar5210SetBeaconTimers_events ah bt
  rw [he]
  refine ⟨rfl, ht, rfl, ?_, rfl⟩
  intro reg hmem
  simp at hmem

theorem u32_sub32_shift (nb : Nat) (r : Int) :
    ((u32 (sub32 nb r <<< 3) : Nat) : Int) = (((nb : Int) - r) * 8) % 2 ^ 32 := by
  have hm : 0 ≤ ((nb : Int) - r) % 4294967296 := Int.emod_nonneg _ (by norm_num)
  simp only [u32, sub32, Nat.shiftLeft_eq]
  push_cast
  rw [Int.toNat_of_nonneg hm, Int.mul_emod, Int.emod_emod_of_dvd _ (dvd_refl _),
    ← Int.mul_emod]

/-- C10: `ar5210BeaconInit` hands to `ar5210SetBeaconTimers`, and so writes to the
timer registers, `bt_nexttbtt = next_beacon` and
`bt_intval = beacon_period & (AR_BEACON_PERIOD | AR_BEACON_RESET_TSF | AR_BEACON_EN)`;
outside station mode `bt_nextdba` and `bt_nextswba` are
`((next_beacon - response time) * 8) mod 2^32` for the DMA and the software
response time, and `bt_nextatim = next_beacon`; in station mode `bt_nextdba` and
`bt_nextswba` are `0xFFFFFFFF` and `bt_nextatim` is 1. -/
theorem ar5210BeaconInit_timers (c : ar5210reg) (t : ath_hal_tunables)
    (ah : ath_hal_5210) (next_beacon beacon_period : Nat)
    (hnb : next_beacon < 2 ^ 32) :
    ar5210BeaconInit c t ah next_beacon beacon_period
      = ar5210SetBeaconTimers ah
          (ar5210BeaconInit_bt c t ah next_beacon beacon_period) ∧
    call_events ah (ar5210BeaconInit c t ah next_beacon beacon_period)
      = [reg_event.wr ar_reg.AR_TIMER0
           (ar5210BeaconInit_bt c t ah next_beacon beacon_period).bt_nexttbtt,
         reg_event.wr ar_reg.AR_TIMER1
           (ar5210BeaconInit_bt c t ah next_beacon beacon_period).bt_nextdba,
         reg_event.wr ar_reg.AR_TIMER2
           (ar5210BeaconInit_bt c t ah next_beacon beacon_period).bt_nextswba,
         reg_event.wr ar_reg.AR_TIMER3
           (ar5210BeaconInit_bt c t ah next_beacon beacon_period).bt_nextatim,
         reg_event.wr ar_reg.AR_BEACON
           (ar5210BeaconInit_bt c t ah next_beacon beacon_period).bt_intval] ∧
    (ar5210BeaconInit_bt c t ah next_beacon beacon_period).bt_nexttbtt = next_beacon ∧
    (ar5210BeaconInit_bt c t ah next_beacon beacon_period).bt_intval
      = beacon_period &&&
          (c.AR_BEACON_PERIOD ||| c.AR_BEACON_RESET_TSF ||| c.AR_BEACON_EN) ∧
    (ah.ah_opmode ≠ c.HAL_M_STA →
      (((ar5210BeaconInit_bt c t ah next_beacon beacon_period).bt_nextdba : Nat) : Int)
        = (((next_beacon : Int) - t.ath_hal_dma_beacon_response_time) * 8) % 2 ^ 32 ∧
      (((ar5210BeaconInit_bt c t ah next_beacon beacon_period).bt_nextswba : Nat) : Int)
        = (((next_beacon : Int) - t.ath_hal_sw_beacon_response_time) * 8) % 2 ^ 32 ∧
      (ar5210BeaconInit_bt c t ah next_beacon beacon_period).bt_nextatim = next_beacon) ∧
    (ah.ah_opmode = c.HAL_M_STA →
      (ar5210BeaconInit_bt c t ah next_beacon beacon_period).bt_nextdba = 0xFFFFFFFF ∧
      (ar5210BeaconInit_bt c t ah next_beacon beacon_period).bt_nextswba = 0xFFFFFFFF ∧
      (ar5210BeaconInit_bt c t ah next_beacon beacon_period).bt_nextatim = 1) := by
  refine ⟨rfl, (ar5210SetBeaconTimers_events ah _), ?_, ?_, ?_, ?_⟩
  · by_cases hm : ah.ah_opmode = c.HAL_M_STA <;> simp [ar5210BeaconInit_bt, hm]
  · by_cases hm : ah.ah_opmode = c.HAL_M_STA <;> simp [ar5210BeaconInit_bt, hm]
  · intro hm
    refine ⟨?_, ?_, ?_⟩
    · simp only [ar5210BeaconInit_bt, hm, ne_eq, not_false_eq_true, if_true]
      exact u32_sub32_shift _ _
    · simp only [ar5210BeaconInit_bt, hm, ne_eq, not_false_eq_true, if_true]
      exact u32_sub32_shift _ _
    · simp only [ar5210BeaconInit_bt, hm, ne_eq, not_false_eq_true, if_true]
      exact Nat.mod_eq_of_lt hnb
  · intro hm
    simp [ar5210BeaconInit_bt, hm, not32]

/-- C10, at a concrete input: an access point with `next_beacon` 1, smaller than the
DMA response time 2, so that the subtraction wraps. -/
theorem ar5210BeaconInit_timers_witness :
    (1 : Nat) < 2 ^ 32 ∧
    (((ar5210BeaconInit_bt ar5210reg_h
        { ath_hal_dma_beacon_response_time := 2, ath_hal_sw_beacon_response_time := 10 }
        { ah_opmode := 6, ah_macRev := 7, ah_rssiThr := 0, hwregs := fun _ => 0,
          trace := [] } 1 100).bt_nextdba : Nat) : Int)
      = (((1 : Nat) : Int) - 2) * 8 % 2 ^ 32 :=
  ⟨by norm_num,
   ((ar5210BeaconInit_timers ar5210reg_h
      { ath_hal_dma_beacon_response_time := 2, ath_hal_sw_beacon_response_time := 10 }
      { ah_opmode := 6, ah_macRev := 7, ah_rssiThr := 0, hwregs := fun _ => 0,
        trace := [] } 1 100 (by norm_num)).2.2.2.2.1 (by decide)).1⟩

/-! ### The beacon-miss threshold -/

theorem testBit_BM_THR (k : Nat) :
    AR_RSSI_THR_BM_THR.testBit k = (decide (8 ≤ k) && decide (k < 11)) := by
  have h : AR_RSSI_THR_BM_THR = (2 ^ 3 - 1) <<< 8 := by decide
  rw [h, Nat.testBit_shiftLeft, Nat.testBit_two_pow_sub_one]
  by_cases h1 : 8 ≤ k <;> by_cases h2 : k < 11 <;> simp [h1, h2] <;> omega

theorem BMISS_MAX_eq : BMISS_MAX = 7 := by decide

/-- The value the last block computes for `ah_rssiThr`. -/
theorem testBit_new_rssiThr (x v k : Nat) :
    ((x &&& not32 AR_RSSI_THR_BM_THR)
        ||| SM v AR_RSSI_THR_BM_THR AR_RSSI_THR_BM_THR_S).testBit k
      = if 8 ≤ k ∧ k < 11 then v.testBit (k - 8)
        else (decide (k < 32) && x.testBit k) := by
  unfold SM
  rw [Nat.testBit_or, Nat.testBit_and, Nat.testBit_and, testBit_not32, testBit_u32,
    Nat.testBit_shiftLeft, testBit_BM_THR]
  have hS : AR_RSSI_THR_BM_THR_S = 8 := rfl
  rw [hS]
  by_cases h1 : 8 ≤ k <;> by_cases h2 : k < 11 <;> simp [h1, h2, Bool.and_comm]
  omega

theorem MS_new_rssiThr (x v : Nat) (hv : v ≤ 7) :
    MS ((x &&& not32 AR_RSSI_THR_BM_THR)
        ||| SM v AR_RSSI_THR_BM_THR AR_RSSI_THR_BM_THR_S)
      AR_RSSI_THR_BM_THR AR_RSSI_THR_BM_THR_S = v := by
  apply Nat.eq_of_testBit_eq
  intro j
  unfold MS
  rw [Nat.testBit_shiftRight, Nat.testBit_and, testBit_new_rssiThr, testBit_BM_THR]
  have hS : AR_RSSI_THR_BM_THR_S = 8 := rfl
  rw [hS]
  by_cases hj : j < 3
  · have h1 : 8 ≤ 8 + j ∧ 8 + j < 11 := by omega
    simp [h1]
  · have h1 : ¬ (8 ≤ 8 + j ∧ 8 + j < 11) := by omega
    have h2 : ¬ (8 + j < 11) := by omega
    have hvj : v.testBit j = false := by
      apply Nat.testBit_lt_two_pow
      calc v < 2 ^ 3 := by omega
        _ ≤ 2 ^ j := Nat.pow_le_pow_right (by decide) (by omega)
    simp [h2, hvj]

theorem sta_pre (c : ar5210reg) (ah : ath_hal_5210) (bs : HAL_BEACON_STATE) :
    ∃ evs,
      (sta_set_beacon c (sta_set_pcf c ah bs) bs).ah_macRev = ah.ah_macRev ∧
      (sta_set_beacon c (sta_set_pcf c ah bs) bs).ah_rssiThr = ah.ah_rssiThr ∧
      (sta_set_beacon c (sta_set_pcf c ah bs) bs).trace = ah.trace ++ evs ∧
      ∀ v, reg_event.wr ar_reg.AR_RSSI_THR v ∉ evs := by
  by_cases hc : bs.bs_cfpmaxduration = 0
  · refine ⟨(sta_set_beacon c (sta_set_pcf c ah bs) bs).trace.drop ah.trace.length,
      ?_, ?_, ?_, ?_⟩
    · simp [sta_set_beacon, sta_set_pcf, hc, OS_REG_READ, OS_REG_WRITE]
    · simp [sta_set_beacon, sta_set_pcf, hc, OS_REG_READ, OS_REG_WRITE]
    · simp [sta_set_beacon, sta_set_pcf, hc, OS_REG_READ, OS_REG_WRITE]
    · intro v
      simp [sta_set_beacon, sta_set_pcf, hc, OS_REG_READ, OS_REG_WRITE]
  · refine ⟨(sta_set_beacon c (sta_set_pcf c ah bs) bs).trace.drop ah.trace.length,
      ?_, ?_, ?_, ?_⟩
    · simp [sta_set_beacon, sta_set_pcf, hc, OS_REG_READ, OS_REG_WRITE]
    · simp [sta_set_beacon, sta_set_pcf, hc, OS_REG_READ, OS_REG_WRITE]
    · simp [sta_set_beacon, sta_set_pcf, hc, OS_REG_READ, OS_REG_WRITE]
    · intro v
      simp [sta_set_beacon, sta_set_pcf, hc, OS_REG_READ, OS_REG_WRITE]

/-- When one of the two guards of the last block fires, the threshold is left
alone: no write to `AR_RSSI_THR`, `ah_rssiThr` as before. -/
theorem sta_bmiss_skipped (c : ar5210reg) (ah : ath_hal_5210) (bs : HAL_BEACON_STATE)
    (hg : ah.ah_macRev < c.AR_SREV_CRETE ∨ bs.bs_bmissthreshold &&& 7 = 0) :
    (ar5210SetStaBeaconTimers c ah bs).ah_rssiThr = ah.ah_rssiThr ∧
    ∃ evs, (ar5210SetStaBeaconTimers c ah bs).trace = ah.trace ++ evs ∧
      ∀ v, reg_event.wr ar_reg.AR_RSSI_THR v ∉ evs := by
  obtain ⟨evs, hrev, hthr, htr, hno⟩ := sta_pre c ah bs
  have hskip : ar5210SetStaBeaconTimers c ah bs
      = sta_set_beacon c (sta_set_pcf c ah bs) bs := by
    unfold ar5210SetStaBeaconTimers sta_set_bmiss
    rw [hrev]
    by_cases h1 : ah.ah_macRev < c.AR_SREV_CRETE
    · simp [h1]
    · have h2 : bs.bs_bmissthreshold &&& 7 = 0 := hg.resolve_left h1
      simp [h1, h2]
  rw [hskip]
  exact ⟨hthr, evs, htr, hno⟩

/-- When neither guard fires, the clamped threshold is put in the field and the
new `ah_rssiThr` is written to `AR_RSSI_THR` as the last access. -/
theorem sta_bmiss_programmed (c : ar5210reg) (ah : ath_hal_5210) (bs : HAL_BEACON_STATE)
    (hrev : c.AR_SREV_CRETE ≤ ah.ah_macRev) (hnz : bs.bs_bmissthreshold &&& 7 ≠ 0) :
    (ar5210SetStaBeaconTimers c ah bs).ah_rssiThr
      = ((ah.ah_rssiThr &&& not32 AR_RSSI_THR_BM_THR)
          ||| SM (if bs.bs_bmissthreshold > BMISS_MAX then BMISS_MAX
                  else bs.bs_bmissthreshold)
                AR_RSSI_THR_BM_THR AR_RSSI_THR_BM_THR_S) ∧
    ∃ evs, (ar5210SetStaBeaconTimers c ah bs).trace
        = ah.trace ++ (evs ++ [reg_event.wr ar_reg.AR_RSSI_THR
            (ar5210SetStaBeaconTimers c ah bs).ah_rssiThr]) ∧
      ∀ v, reg_event.wr ar_reg.AR_RSSI_THR v ∉ evs := by
  obtain ⟨evs, hrev1, hthr, htr, hno⟩ := sta_pre c ah bs
  have h1 : ¬ ah.ah_macRev < c.AR_SREV_CRETE := by omega
  have hrun : ar5210SetStaBeaconTimers c ah bs
      = OS_REG_WRITE
          { sta_set_beacon c (sta_set_pcf c ah bs) bs with
            ah_rssiThr := (ah.ah_rssiThr &&& not32 AR_RSSI_THR_BM_THR)
              ||| SM (if bs.bs_bmissthreshold > BMISS_MAX then BMISS_MAX
                      else bs.bs_bmissthreshold)
                    AR_RSSI_THR_BM_THR AR_RSSI_THR_BM_THR_S }
          ar_reg.AR_RSSI_THR
          ((ah.ah_rssiThr &&& not32 AR_RSSI_THR_BM_THR)
              ||| SM (if bs.bs_bmissthreshold > BMISS_MAX then BMISS_MAX
                      else bs.bs_bmissthreshold)
                    AR_RSSI_THR_BM_THR AR_RSSI_THR_BM_THR_S) := by
    unfold ar5210SetStaBeaconTimers sta_set_bmiss
    rw [hrev1, hthr]
    simp [h1, hnz]
    rw [hrev1]
  rw [hrun]
  refine ⟨rfl, evs, ?_, hno⟩
  simp [OS_REG_WRITE, htr]

theorem getLast?_call_events (ah ah2 : ath_hal_5210) (evs : List reg_event)
    (e : reg_event) (h : ah2.trace = ah.trace ++ (evs ++ [e])) :
    (call_events ah ah2).getLast? = some e := by
  rw [call_events_append ah ah2 _ h]
  simp

/-- C6, as stated, fails: on Crete hardware a threshold of 8 is greater than
`BMISS_MAX`, yet the call takes the `(bs_bmissthreshold & 7) == 0` return, so the
field of `ah_rssiThr` stays 0 instead of becoming `BMISS_MAX` and nothing is
written to `AR_RSSI_THR`. -/
theorem ar5210SetStaBeaconTimers_no_clamp_at_8 :
    ar5210reg_h.AR_SREV_CRETE ≤ crete_hal.ah_macRev ∧
    (sta_beacon_state 8).bs_bmissthreshold > BMISS_MAX ∧
    MS (ar5210SetStaBeaconTimers ar5210reg_h crete_hal (sta_beacon_state 8)).ah_rssiThr
        AR_RSSI_THR_BM_THR AR_RSSI_THR_BM_THR_S = 0 ∧
    MS (ar5210SetStaBeaconTimers ar5210reg_h crete_hal (sta_beacon_state 8)).ah_rssiThr
        AR_RSSI_THR_BM_THR AR_RSSI_THR_BM_THR_S ≠ BMISS_MAX ∧
    ∀ v, reg_event.wr ar_reg.AR_RSSI_THR v
      ∉ call_events crete_hal
          (ar5210SetStaBeaconTimers ar5210reg_h crete_hal (sta_beacon_state 8)) := by
  have hs := sta_bmiss_skipped ar5210reg_h crete_hal (sta_beacon_state 8)
    (Or.inr (by decide))
  obtain ⟨hthr, evs, htr, hno⟩ := hs
  refine ⟨by decide, by decide, ?_, ?_, ?_⟩
  · rw [hthr]; decide
  · rw [hthr]; decide
  · rw [call_events_append _ _ _ htr]; exact hno

/-- C6, amended: on hardware with `ah_macRev >= AR_SREV_CRETE`, with `BMISS_MAX`
being 7, a threshold greater than `BMISS_MAX` whose low three bits are not all
zero is clamped: after the call the `BM_THR` field of `ah_rssiThr` is
`BMISS_MAX`, every bit of `ah_rssiThr` outside the field is unchanged, and that
value is the last thing written, to `AR_RSSI_THR`.  For a threshold between 1
and `BMISS_MAX` the same holds with the field equal to the threshold. -/
theorem ar5210SetStaBeaconTimers_bmiss_clamp (c : ar5210reg) (ah : ath_hal_5210)
    (bs : HAL_BEACON_STATE) (hrev : c.AR_SREV_CRETE ≤ ah.ah_macRev) :
    BMISS_MAX = 7 ∧
    (bs.bs_bmissthreshold > BMISS_MAX → bs.bs_bmissthreshold &&& 7 ≠ 0 →
      MS (ar5210SetStaBeaconTimers c ah bs).ah_rssiThr
        AR_RSSI_THR_BM_THR AR_RSSI_THR_BM_THR_S = BMISS_MAX ∧
      (∀ k, k < 32 → AR_RSSI_THR_BM_THR.testBit k = false →
        (ar5210SetStaBeaconTimers c ah bs).ah_rssiThr.testBit k
          = ah.ah_rssiThr.testBit k) ∧
      (call_events ah (ar5210SetStaBeaconTimers c ah bs)).getLast?
        = some (reg_event.wr ar_reg.AR_RSSI_THR
            (ar5210SetStaBeaconTimers c ah bs).ah_rssiThr)) ∧
    (1 ≤ bs.bs_bmissthreshold → bs.bs_bmissthreshold ≤ BMISS_MAX →
      MS (ar5210SetStaBeaconTimers c ah bs).ah_rssiThr
        AR_RSSI_THR_BM_THR AR_RSSI_THR_BM_THR_S = bs.bs_bmissthreshold ∧
      (∀ k, k < 32 → AR_RSSI_THR_BM_THR.testBit k = false →
        (ar5210SetStaBeaconTimers c ah bs).ah_rssiThr.testBit k
          = ah.ah_rssiThr.testBit k) ∧
      (call_events ah (ar5210SetStaBeaconTimers c ah bs)).getLast?
        = some (reg_event.wr ar_reg.AR_RSSI_THR
            (ar5210SetStaBeaconTimers c ah bs).ah_rssiThr)) := by
  have hframe : ∀ v k, k < 32 → AR_RSSI_THR_BM_THR.testBit k = false →
      ((ah.ah_rssiThr &&& not32 AR_RSSI_THR_BM_THR)
          ||| SM v AR_RSSI_THR_BM_THR AR_RSSI_THR_BM_THR_S).testBit k
        = ah.ah_rssiThr.testBit k := by
    intro v k hk hout
    rw [testBit_new_rssiThr]
    rw [testBit_BM_THR] at hout
    have : ¬ (8 ≤ k ∧ k < 11) := by
      intro h; simp [h.1, h.2] at hout
    simp [this, hk]
  refine ⟨BMISS_MAX_eq, ?_, ?_⟩
  · intro hgt hnz
    obtain ⟨hval, evs, htr, _⟩ := sta_bmiss_programmed c ah bs hrev hnz
    refine ⟨?_, ?_, getLast?_call_events _ _ _ _ htr⟩
    · rw [hval]; simp only [hgt, if_true]
      exact MS_new_rssiThr _ _ (by rw [BMISS_MAX_eq])
    · intro k hk hout
      rw [hval]; exact hframe _ k hk hout
  · intro h1 hle
    have hle7 : bs.bs_bmissthreshold ≤ 7 := by rw [BMISS_MAX_eq] at hle; exact hle
    have hnz : bs.bs_bmissthreshold &&& 7 ≠ 0 := by
      have : bs.bs_bmissthreshold &&& 2 ^ 3 - 1 = bs.bs_bmissthreshold :=
        Nat.and_pow_two_sub_one_of_lt_two_pow (by omega)
      have h7 : (2 ^ 3 - 1 : Nat) = 7 := by norm_num
      rw [h7] at this
      rw [this]; omega
    obtain ⟨hval, evs, htr, _⟩ := sta_bmiss_programmed c ah bs hrev hnz
    have hngt : ¬ bs.bs_bmissthreshold > BMISS_MAX := by omega
    refine ⟨?_, ?_, getLast?_call_events _ _ _ _ htr⟩
    · rw [hval]; simp only [hngt, if_false]
      exact MS_new_rssiThr _ _ hle7
    · intro k hk hout
      rw [hval]; exact hframe _ k hk hout

/-- C6, amended, at a concrete input: Crete hardware and a threshold of 9, which
is clamped to 7. -/
theorem ar5210SetStaBeaconTimers_bmiss_clamp_witness :
    ar5210reg_h.AR_SREV_CRETE ≤ crete_hal.ah_macRev ∧
    MS (ar5210SetStaBeaconTimers ar5210reg_h crete_hal (sta_beacon_state 9)).ah_rssiThr
        AR_RSSI_THR_BM_THR AR_RSSI_THR_BM_THR_S = BMISS_MAX :=
  ⟨by decide,
   ((ar5210SetStaBeaconTimers_bmiss_clamp ar5210reg_h crete_hal (sta_beacon_state 9)
      (by decide)).2.1 (by decide) (by decide)).1⟩

/-- C7: `ar5210SetStaBeaconTimers` never programs a beacon-miss count of 0.  Every
value the call writes to `AR_RSSI_THR` has a `BM_THR` field between 1 and 7; and
when `ah_macRev < AR_SREV_CRETE` or `(bs_bmissthreshold & 7) == 0` the call writes
nothing to `AR_RSSI_THR` and leaves `ah_rssiThr` unchanged. -/
theorem ar5210SetStaBeaconTimers_bmiss_nonzero (c : ar5210reg) (ah : ath_hal_5210)
    (bs : HAL_BEACON_STATE) :
    (∀ v, reg_event.wr ar_reg.AR_RSSI_THR v
        ∈ call_events ah (ar5210SetStaBeaconTimers c ah bs) →
      1 ≤ MS v AR_RSSI_THR_BM_THR AR_RSSI_THR_BM_THR_S ∧
      MS v AR_RSSI_THR_BM_THR AR_RSSI_THR_BM_THR_S ≤ 7) ∧
    (ah.ah_macRev < c.AR_SREV_CRETE ∨ bs.bs_bmissthreshold &&& 7 = 0 →
      (∀ v, reg_event.wr ar_reg.AR_RSSI_THR v
        ∉ call_events ah (ar5210SetStaBeaconTimers c ah bs)) ∧
      (ar5210SetStaBeaconTimers c ah bs).ah_rssiThr = ah.ah_rssiThr) := by
  have hskip : ah.ah_macRev < c.AR_SREV_CRETE ∨ bs.bs_bmissthreshold &&& 7 = 0 →
      (∀ v, reg_event.wr ar_reg.AR_RSSI_THR v
        ∉ call_events ah (ar5210SetStaBeaconTimers c ah bs)) ∧
      (ar5210SetStaBeaconTimers c ah bs).ah_rssiThr = ah.ah_rssiThr := by
    intro hg
    obtain ⟨hthr, evs, htr, hno⟩ := sta_bmiss_skipped c ah bs hg
    rw [call_events_append _ _ _ htr]
    exact ⟨hno, hthr⟩
  refine ⟨?_, hskip⟩
  intro v hv
  by_cases hg : ah.ah_macRev < c.AR_SREV_CRETE ∨ bs.bs_bmissthreshold &&& 7 = 0
  · exact absurd hv ((hskip hg).1 v)
  · have hrev : c.AR_SREV_CRETE ≤ ah.ah_macRev := by
      by_contra h; exact hg (Or.inl (by omega))
    have hnz : bs.bs_bmissthreshold &&& 7 ≠ 0 := fun h => hg (Or.inr h)
    obtain ⟨hval, evs, htr, hno⟩ := sta_bmiss_programmed c ah bs hrev hnz
    rw [call_events_append _ _ _ htr] at hv
    rw [List.mem_append] at hv
    rcases hv with hv | hv
    · exact absurd hv (hno v)
    · simp only [List.mem_singleton, reg_event.wr.injEq, true_and] at hv
      rw [hv, hval]
      by_cases hgt : bs.bs_bmissthreshold > BMISS_MAX
      · simp only [hgt, if_true]
        rw [MS_new_rssiThr _ _ (by rw [BMISS_MAX_eq]), BMISS_MAX_eq]
        omega
      · have hle7 : bs.bs_bmissthreshold ≤ 7 := by
          rw [BMISS_MAX_eq] at hgt; omega
        simp only [hgt, if_false]
        rw [MS_new_rssiThr _ _ hle7]
        refine ⟨?_, hle7⟩
        rcases Nat.eq_zero_or_pos bs.bs_bmissthreshold with h0 | hpos
        · rw [h0] at hnz; simp at hnz
        · exact hpos

end Ar5210

namespace Swrtmesh

/-! ## swrtmesh.c -/

theorem spawned_append (l1 l2 : List action) :
    spawned (l1 ++ l2) = spawned l1 ++ spawned l2 := by
  induction l1 with
  | nil => rfl
  | cons a l ih => cases a <;> simp [spawned, ih]

theorem killed_append (l1 l2 : List action) :
    killed (l1 ++ l2) = killed l1 ++ killed l2 := by
  induction l1 with
  | nil => rfl
  | cons a l ih => cases a <;> simp [killed, ih]

theorem spawned_kill_if_running (w : world) (name : String) :
    spawned (kill_if_running w name) = [] := by
  unfold kill_if_running
  split <;> rfl

theorem spawned_stop_swrtmesh (w : world) : spawned (stop_swrtmesh w) = [] := by
  unfold stop_swrtmesh
  split
  · rfl
  · simp [spawned_append, spawned_kill_if_running]

theorem generate_if_missing_quiet (w : world) (path which : String) :
    spawned (generate_if_missing w path which) = [] ∧
    killed (generate_if_missing w path which) = [] := by
  unfold generate_if_missing
  split <;> exact ⟨rfl, rfl⟩

theorem auto_generate_config_quiet (w : world) :
    spawned (auto_generate_config w) = [] ∧ killed (auto_generate_config w) = [] := by
  unfold auto_generate_config
  constructor
  · simp only [spawned_append, (generate_if_missing_quiet w _ _).1]
    split <;> rfl
  · simp only [killed_append, (generate_if_missing_quiet w _ _).2]
    split <;> rfl

theorem start_controller_spawned (w : world) :
    spawned (start_controller w)
      = (if nvram_match w "swrtmesh_controller_enable" "1" then
          [cntl_argv (w.controller_select == "0")] else []) ∧
    killed (start_controller w) = [] := by
  unfold start_controller
  by_cases hc : nvram_match w "swrtmesh_controller_enable" "1" = true
  · simp only [hc, if_true]
    by_cases hf : w.check_if_file_exist "/proc/sys/net/netfilter/nf_conntrack_timestamp" = true
    · simp [hf, spawned, killed]
    · simp [hf, spawned, killed]
  · simp [hc, spawned, killed]

/-- The effects of `start_swrtmesh` after its call of `stop_swrtmesh`, when it is
init that runs it and the mesh is not switched off. -/
theorem start_swrtmesh_enabled (w : world) (hpid : w.getpid = 1)
    (he : nvram_match w "swrtmesh_enable" "0" = false)
    (hx : nvram_match w "x_Setting" "0" = false) :
    ∃ rest, (start_swrtmesh w).2 = stop_swrtmesh w ++ rest ∧
      killed rest = [] ∧
      spawned rest
        = [ubusd_argv, ieee1905_argv, tp_argv]
          ++ (if nvram_match w "swrtmesh_controller_enable" "1" then
                [cntl_argv (w.controller_select == "0")] else [])
          ++ (if nvram_match w "swrtmesh_agent_enable" "1" && w.fopen_ok then
                [agent_argv] else []) ∧
      (start_swrtmesh w).1
        = (if nvram_match w "swrtmesh_agent_enable" "1" && !w.fopen_ok then -1 else 0) := by
  have hq := auto_generate_config_quiet w
  have hc := start_controller_spawned w
  by_cases ha : nvram_match w "swrtmesh_agent_enable" "1" = true
  · by_cases hf : w.fopen_ok = true
    · refine ⟨[action.system "touch /tmp/SWRTMESHUTILS_DEBUG"]
          ++ auto_generate_config w
          ++ [action._eval ubusd_argv, action._eval ieee1905_argv, action._eval tp_argv]
          ++ start_controller w
          ++ [action.unlink "/var/run/multiap/multiap.backhaul"]
          ++ [action.write_file "/tmp/agent.sh"
                ["#!/bin/sh\n", "dynbhd &\n",
                 "mapagent -o /tmp/mapagent.log -d -vvvv &\n"],
              action.chmod "/tmp/agent.sh" 0o777,
              action._eval agent_argv], ?_, ?_, ?_, ?_⟩
      · simp [start_swrtmesh, hpid, he, hx, ha, hf]
      · simp [killed_append, hq.2, hc.2, killed]
      · simp [spawned_append, hq.1, hc.1, spawned, ha, hf]
      · simp [start_swrtmesh, hpid, he, hx, ha, hf]
    · refine ⟨[action.system "touch /tmp/SWRTMESHUTILS_DEBUG"]
          ++ auto_generate_config w
          ++ [action._eval ubusd_argv, action._eval ieee1905_argv, action._eval tp_argv]
          ++ start_controller w
          ++ [action.unlink "/var/run/multiap/multiap.backhaul"], ?_, ?_, ?_, ?_⟩
      · simp [start_swrtmesh, hpid, he, hx, ha, hf]
      · simp [killed_append, hq.2, hc.2, killed]
      · simp [spawned_append, hq.1, hc.1, spawned, ha, hf]
      · simp [start_swrtmesh, hpid, he, hx, ha, hf]
  · refine ⟨[action.system "touch /tmp/SWRTMESHUTILS_DEBUG"]
        ++ auto_generate_config w
        ++ [action._eval ubusd_argv, action._eval ieee1905_argv, action._eval tp_argv]
        ++ start_controller w, ?_, ?_, ?_, ?_⟩
    · simp [start_swrtmesh, hpid, he, hx, ha]
    · simp [killed_append, hq.2, hc.2, killed]
    · simp [spawned_append, hq.1, hc.1, spawned, ha]
    · simp [start_swrtmesh, hpid, he, hx, ha]

/-- C9, as stated, fails: with init as the caller, the mesh enabled,
`swrtmesh_agent_enable` "1" and "/tmp/agent.sh" not writable, the run returns -1
before its `_eval` of the delayed agent script, so the script is not launched
although the flag is "1". -/
theorem start_swrtmesh_agent_not_launched :
    agent_script_unwritable.getpid = 1 ∧
    nvram_match agent_script_unwritable "swrtmesh_enable" "0" = false ∧
    nvram_match agent_script_unwritable "x_Setting" "0" = false ∧
    nvram_match agent_script_unwritable "swrtmesh_agent_enable" "1" = true ∧
    action._eval agent_argv ∉ (start_swrtmesh agent_script_unwritable).2 ∧
    (start_swrtmesh agent_script_unwritable).1 = -1 := by
  refine ⟨rfl, by decide, by decide, by decide, ?_, ?_⟩
  · decide
  · decide

/-- C9, amended: `start_swrtmesh` (1) only issues `notify_rc("start_swrtmesh")` and
returns 0 when the caller is not pid 1; (2) otherwise returns 0 with no effect
when `swrtmesh_enable` is "0" or `x_Setting` is "0"; (3) otherwise first runs
`stop_swrtmesh`, which spawns nothing, and kills nothing afterwards; it then
spawns, in this order, ubusd, ieee1905d, topologyd, mapcontroller iff
`swrtmesh_controller_enable` is "1" (with "-w" iff the value read back for
controller_select is "0"), and the delayed agent script iff
`swrtmesh_agent_enable` is "1" and "/tmp/agent.sh" can be opened; it returns -1
when the agent is enabled and the file cannot be opened, and 0 otherwise. -/
theorem start_swrtmesh_spec (w : world) :
    (w.getpid ≠ 1 →
      start_swrtmesh w = (0, [action.notify_rc "start_swrtmesh"])) ∧
    (w.getpid = 1 →
      nvram_match w "swrtmesh_enable" "0" = true ∨ nvram_match w "x_Setting" "0" = true →
      start_swrtmesh w = (0, [])) ∧
    (w.getpid = 1 → nvram_match w "swrtmesh_enable" "0" = false →
      nvram_match w "x_Setting" "0" = false →
      ∃ rest, (start_swrtmesh w).2 = stop_swrtmesh w ++ rest ∧
        spawned (stop_swrtmesh w) = [] ∧
        killed rest = [] ∧
        spawned rest
          = [ubusd_argv, ieee1905_argv, tp_argv]
            ++ (if nvram_match w "swrtmesh_controller_enable" "1" then
                  [cntl_argv (w.controller_select == "0")] else [])
            ++ (if nvram_match w "swrtmesh_agent_enable" "1" && w.fopen_ok then
                  [agent_argv] else []) ∧
        (start_swrtmesh w).1
          = (if nvram_match w "swrtmesh_agent_enable" "1" && !w.fopen_ok
              then -1 else 0)) ∧
    (∀ w_flag, "-w" ∈ cntl_argv w_flag ↔ w_flag = true) := by
  refine ⟨?_, ?_, ?_, ?_⟩
  · intro hpid
    simp [start_swrtmesh, hpid]
  · intro hpid hoff
    rcases hoff with h | h <;> simp [start_swrtmesh, hpid, h]
  · intro hpid he hx
    obtain ⟨rest, h1, h2, h3, h4⟩ := start_swrtmesh_enabled w hpid he hx
    exact ⟨rest, h1, spawned_stop_swrtmesh w, h2, h3, h4⟩
  · intro w_flag
    cases w_flag <;> simp [cntl_argv]

/-! ### wl_isup -/

/-- The limit that `wl_isup` hands to `f_read_string` is 0, not the buffer size. -/
theorem wl_isup_limit :
    c_bool (decide ((16 : Nat) > 0) && (("" : String) == "up")) = 0 := by
  decide

/-- With that limit nothing is read: `wl_isup` is 1 for every existing operstate
file, whatever it holds, and 0 for a missing one. -/
theorem wl_isup_exists (fs : sysfs) (ifname : String) :
    wl_isup fs ifname = if f_exists fs (operstate_path 128 ifname) then 1 else 0 := by
  unfold wl_isup
  simp only [wl_isup_limit]
  by_cases h : f_exists fs (operstate_path 128 ifname) = true
  · simp [h, f_read_string]
  · simp [h]

/-- C11, at the failing input: for the interface eth0, whose operstate file
exists and holds "down", `wl_isup` passes 0 as the read limit, reads nothing and
returns 1, where the specification has 0: the string read with the buffer size
as the limit is not "up". -/
theorem wl_isup_down_reports_up :
    f_exists eth0_down (operstate_path 128 "eth0") = true ∧
    eth0_down.files (operstate_path 128 "eth0") = some "down\n" ∧
    wl_isup eth0_down "eth0" = 1 ∧
    wl_isup_worded eth0_down "eth0" = 0 := by
  have hp : operstate_path 128 "eth0" = "/sys/class/net/eth0/operstate" := by decide
  have hx : f_exists eth0_down (operstate_path 128 "eth0") = true := by
    rw [hp]; decide
  refine ⟨hx, ?_, ?_, ?_⟩
  · rw [hp]; decide
  · rw [wl_isup_exists, hx]; rfl
  · unfold wl_isup_worded
    rw [hp]
    decide

end Swrtmesh
